import Mathlib

set_option maxRecDepth 4000

namespace Elke27

/-!
Verification development for the Elke27 security-panel client library
(custom_components/elke27/vendor/elkm1/elke27_lib).  Python source files are
shallowly embedded as Lean definitions; machine integers are modelled as Int
with explicit bounds where the source checks them, dictionaries as association
lists, and fallible paths as explicit outcome types.
-/

/-! ## JSON-like values

Python payloads are JSON objects.  We model the Python values reachable from
the handlers by an inductive type: None, int, str, bool, list, dict. -/

inductive Value where
  | vNull : Value
  | vInt (n : Int) : Value
  | vStr (s : String) : Value
  | vBool (b : Bool) : Value
  | vList (xs : List Value) : Value
  | vObj (fields : List (String × Value)) : Value
deriving Repr

mutual

def Value.decEq : (a b : Value) → Decidable (a = b)
  | Value.vNull, Value.vNull => isTrue rfl
  | Value.vInt a, Value.vInt b =>
      if h : a = b then isTrue (by rw [h]) else isFalse (by simp [h])
  | Value.vStr a, Value.vStr b =>
      if h : a = b then isTrue (by rw [h]) else isFalse (by simp [h])
  | Value.vBool a, Value.vBool b =>
      if h : a = b then isTrue (by rw [h]) else isFalse (by simp [h])
  | Value.vList xs, Value.vList ys =>
      match Value.decEqList xs ys with
      | isTrue h => isTrue (by rw [h])
      | isFalse h => isFalse (by simp [h])
  | Value.vObj xs, Value.vObj ys =>
      match Value.decEqObj xs ys with
      | isTrue h => isTrue (by rw [h])
      | isFalse h => isFalse (by simp [h])
  | Value.vNull, Value.vInt _ => isFalse (by simp)
  | Value.vNull, Value.vStr _ => isFalse (by simp)
  | Value.vNull, Value.vBool _ => isFalse (by simp)
  | Value.vNull, Value.vList _ => isFalse (by simp)
  | Value.vNull, Value.vObj _ => isFalse (by simp)
  | Value.vInt _, Value.vNull => isFalse (by simp)
  | Value.vInt _, Value.vStr _ => isFalse (by simp)
  | Value.vInt _, Value.vBool _ => isFalse (by simp)
  | Value.vInt _, Value.vList _ => isFalse (by simp)
  | Value.vInt _, Value.vObj _ => isFalse (by simp)
  | Value.vStr _, Value.vNull => isFalse (by simp)
  | Value.vStr _, Value.vInt _ => isFalse (by simp)
  | Value.vStr _, Value.vBool _ => isFalse (by simp)
  | Value.vStr _, Value.vList _ => isFalse (by simp)
  | Value.vStr _, Value.vObj _ => isFalse (by simp)
  | Value.vBool _, Value.vNull => isFalse (by simp)
  | Value.vBool _, Value.vInt _ => isFalse (by simp)
  | Value.vBool _, Value.vStr _ => isFalse (by simp)
  | Value.vBool _, Value.vList _ => isFalse (by simp)
  | Value.vBool _, Value.vObj _ => isFalse (by simp)
  | Value.vList _, Value.vNull => isFalse (by simp)
  | Value.vList _, Value.vInt _ => isFalse (by simp)
  | Value.vList _, Value.vStr _ => isFalse (by simp)
  | Value.vList _, Value.vBool _ => isFalse (by simp)
  | Value.vList _, Value.vObj _ => isFalse (by simp)
  | Value.vObj _, Value.vNull => isFalse (by simp)
  | Value.vObj _, Value.vInt _ => isFalse (by simp)
  | Value.vObj _, Value.vStr _ => isFalse (by simp)
  | Value.vObj _, Value.vBool _ => isFalse (by simp)
  | Value.vObj _, Value.vList _ => isFalse (by simp)

def Value.decEqList : (xs ys : List Value) → Decidable (xs = ys)
  | [], [] => isTrue rfl
  | [], _ :: _ => isFalse (by simp)
  | _ :: _, [] => isFalse (by simp)
  | x :: xs, y :: ys =>
      match Value.decEq x y, Value.decEqList xs ys with
      | isTrue h1, isTrue h2 => isTrue (by rw [h1, h2])
      | isFalse h1, _ => isFalse (by simp [h1])
      | _, isFalse h2 => isFalse (by simp [h2])

def Value.decEqObj : (xs ys : List (String × Value)) → Decidable (xs = ys)
  | [], [] => isTrue rfl
  | [], _ :: _ => isFalse (by simp)
  | _ :: _, [] => isFalse (by simp)
  | (k, v) :: xs, (l, w) :: ys =>
      if hk : k = l then
        match Value.decEq v w, Value.decEqObj xs ys with
        | isTrue h1, isTrue h2 => isTrue (by rw [hk, h1, h2])
        | isFalse h1, _ => isFalse (by simp [h1])
        | _, isFalse h2 => isFalse (by simp [h2])
      else isFalse (by simp [hk])

end

instance : DecidableEq Value := Value.decEq

/-- Association-list lookup, modelling Python dict.get(key) on a dict whose
keys are unique (first binding wins, as in a dict). -/
def assocGet (fields : List (String × Value)) (key : String) : Option Value :=
  match fields with
  | [] => none
  | (k, v) :: rest => if k = key then some v else assocGet rest key

/-- Membership test for a key, modelling the Python expression key in dict. -/
def assocHas (fields : List (String × Value)) (key : String) : Bool :=
  (assocGet fields key).isSome

/-- Association-list update, modelling dict[key] = value: replaces the first
binding for the key, or appends one. -/
def assocSet (fields : List (String × Value)) (key : String) (v : Value) :
    List (String × Value) :=
  match fields with
  | [] => [(key, v)]
  | (k, w) :: rest =>
      if k = key then (k, v) :: rest else (k, w) :: assocSet rest key v

/-- Python dict.get(key) where a missing key and a stored None are both the
Python object None; used where the source compares dict.get(key) to a value. -/
def pyGet (fields : List (String × Value)) (key : String) : Value :=
  (assocGet fields key).getD Value.vNull

/-! ## C2: outbound envelope sequence (session.py)

Source: Session.__init__ sets self._tx_envelope_seq = 1 (session.py:122);
Session._next_envelope_seq and Session._wrap_seq (session.py:602-612). -/

/-- Session._wrap_seq from session.py: values above 2147483647 or at or below
zero wrap to the given wrap target. -/
def wrapSeq (value : Int) (wrapTo : Int) : Int :=
  let maxSeq : Int := 2147483647
  if value > maxSeq then wrapTo
  else if value ≤ 0 then wrapTo
  else value

/-- Session._next_envelope_seq from session.py: increment then wrap to 1. -/
def nextEnvelopeSeq (current : Int) : Int :=
  wrapSeq (current + 1) 1

/-- Initial value of Session._tx_envelope_seq, set in Session.__init__ and
reset on a successful HELLO (session.py:122, session.py:200). -/
def initialTxEnvelopeSeq : Int := 1

/-! ## C10: LinkKeys JSON round trip (types.py:42-67) -/

/-- LinkKeys from types.py: three hex-string key fields. -/
structure LinkKeys where
  tempkeyHex : String
  linkkeyHex : String
  linkhmacHex : String
deriving DecidableEq, Repr

/-- LinkKeys.to_json from types.py: a JSON object with the three hex fields. -/
def LinkKeys.toJson (k : LinkKeys) : List (String × Value) :=
  [("tempkey_hex", Value.vStr k.tempkeyHex),
   ("linkkey_hex", Value.vStr k.linkkeyHex),
   ("linkhmac_hex", Value.vStr k.linkhmacHex)]

/-- Python str(x) on payload values.  On a string it is the identity; scalars
render as in Python; container renderings are abbreviated placeholders, which
no proved property depends on beyond being non-empty and deterministic. -/
def pyStrOfValue : Value → String
  | Value.vNull => "None"
  | Value.vInt n => toString n
  | Value.vStr s => s
  | Value.vBool b => if b then "True" else "False"
  | Value.vList _ => "[…]"
  | Value.vObj _ => "\x7b…\x7d"

/-- LinkKeys.from_json from types.py: str(data.get(field, "")) per field. -/
def LinkKeys.fromJson (data : List (String × Value)) : LinkKeys :=
  { tempkeyHex := pyStrOfValue ((assocGet data "tempkey_hex").getD (Value.vStr ""))
    linkkeyHex := pyStrOfValue ((assocGet data "linkkey_hex").getD (Value.vStr ""))
    linkhmacHex := pyStrOfValue ((assocGet data "linkhmac_hex").getD (Value.vStr "")) }

/-! ## C9: Session.close and the disconnect hook (session.py:215-231, 594-600)

The Session owns a socket, a deframe state, session info, an outbound queue
and an optional receiver.  close() releases all of them and transitions to
DISCONNECTED; it catches OSError from the socket close, so it never raises.
The on_disconnected hook is invoked only by _handle_disconnect, never by
close() itself.  Hook invocations are modelled as an output list whose entries
carry the causing error (none for a clean close). -/

inductive SessionLifecycle where
  | disconnected
  | connecting
  | hello
  | active
deriving DecidableEq, Repr

/-- SessionInfo from session.py: session id plus hex key material. -/
structure SessionInfo where
  sessionId : Int
  sessionKeyHex : String
  sessionHmacHex : String
deriving DecidableEq, Repr

/-- The Session fields that connect/close/_handle_disconnect manipulate
(session.py).  The socket, deframe state and outbound queue are modelled by
presence only. -/
structure SessionModel where
  sock : Option Unit
  deframeState : Option Unit
  info : Option SessionInfo
  lifecycle : SessionLifecycle
  lastError : Option String
  outbound : Option Unit
  recvRunning : Bool
deriving DecidableEq, Repr

/-- Session.close from session.py:215-231: stops the receiver, stops and
drops the outbound queue, closes and drops the socket, clears the deframe
state and session info, and transitions to DISCONNECTED.  The returned list
records the on_disconnected hook invocations made by the call: close() makes
none. -/
def SessionModel.close (s : SessionModel) : SessionModel × List (Option String) :=
  ({ s with
      recvRunning := false
      outbound := none
      sock := none
      deframeState := none
      info := none
      lifecycle := SessionLifecycle.disconnected }, [])

/-- Session._handle_disconnect from session.py:594-600: records the error,
closes the session, then fires on_disconnected exactly once with the error. -/
def SessionModel.handleDisconnect (s : SessionModel) (err : Option String) :
    SessionModel × List (Option String) :=
  let closed := SessionModel.close { s with lastError := err }
  (closed.1, closed.2 ++ [err])

/-- A concrete ACTIVE session with every resource held, as after a successful
connect (session.py:194-213). -/
def exampleActiveSession : SessionModel :=
  { sock := some ()
    deframeState := some ()
    info := some { sessionId := 7, sessionKeyHex := "00", sessionHmacHex := "11" }
    lifecycle := SessionLifecycle.active
    lastError := none
    outbound := some ()
    recvRunning := true }

/-! ## C8: snapshot versioning (client.py:501-521, types.py:173-202) -/

/-- ArmMode from types.py. -/
inductive ArmMode where
  | disarmed
  | armedStay
  | armedAway
  | armedNight
deriving DecidableEq, Repr

/-- PanelInfo from types.py. -/
structure PanelInfo where
  mac : Option String := none
  model : Option String := none
  firmware : Option String := none
  serial : Option String := none
deriving DecidableEq, Repr

/-- TableInfo from types.py. -/
structure TableInfo where
  areas : Option Int := none
  zones : Option Int := none
  outputs : Option Int := none
  tstats : Option Int := none
deriving DecidableEq, Repr

/-- AreaState from types.py, imported by client.py as V2AreaState. -/
structure V2AreaState where
  areaId : Int
  name : Option String := none
  armMode : Option ArmMode := none
  ready : Option Bool := none
  alarmActive : Option Bool := none
  chime : Option Bool := none
deriving DecidableEq, Repr

/-- ZoneState from types.py, imported by client.py as V2ZoneState. -/
structure V2ZoneState where
  zoneId : Int
  name : Option String := none
  isOpen : Option Bool := none
  bypassed : Option Bool := none
  trouble : Option Bool := none
  alarm : Option Bool := none
  tamper : Option Bool := none
  lowBattery : Option Bool := none
deriving DecidableEq, Repr

/-- OutputState from types.py, imported by client.py as V2OutputState. -/
structure V2OutputState where
  outputId : Int
  name : Option String := none
  state : Option Bool := none
deriving DecidableEq, Repr

/-- PanelSnapshot from types.py:173-202.  Mappings are association lists;
updated_at is a tick count standing in for the datetime. -/
structure PanelSnapshot where
  panel : PanelInfo
  tableInfo : TableInfo
  areas : List (Int × V2AreaState)
  zones : List (Int × V2ZoneState)
  outputs : List (Int × V2OutputState)
  version : Nat
  updatedAt : Nat
deriving DecidableEq, Repr

/-- PanelSnapshot.empty from types.py: the initial placeholder snapshot. -/
def PanelSnapshot.empty : PanelSnapshot :=
  { panel := {}
    tableInfo := {}
    areas := []
    zones := []
    outputs := []
    version := 0
    updatedAt := 0 }

/-- The two client fields touched by Elke27Client._replace_snapshot:
self._snapshot and self._snapshot_version (client.py:256-257). -/
structure SnapClient where
  snapshot : PanelSnapshot
  snapshotVersion : Nat
deriving DecidableEq, Repr

/-- Client state right after Elke27Client.__init__ (client.py:256-257). -/
def initialSnapClient : SnapClient :=
  { snapshot := PanelSnapshot.empty, snapshotVersion := 0 }

/-- The optional keyword arguments of _replace_snapshot. -/
structure SnapshotUpdates where
  panelInfo : Option PanelInfo := none
  tableInfo : Option TableInfo := none
  areas : Option (List (Int × V2AreaState)) := none
  zones : Option (List (Int × V2ZoneState)) := none
  outputs : Option (List (Int × V2OutputState)) := none
deriving DecidableEq, Repr

/-- Python truthiness fallback new or old for an optional mapping argument:
None and the empty mapping both keep the previous value. -/
def orKeepMap {α : Type} (new : Option (List α)) (old : List α) : List α :=
  match new with
  | none => old
  | some [] => old
  | some (x :: xs) => x :: xs

/-- Elke27Client._replace_snapshot from client.py:501-521: bumps the version
counter by one and swaps in a freshly built snapshot whose fields fall back to
the previous snapshot when no update is supplied. -/
def replaceSnapshot (c : SnapClient) (u : SnapshotUpdates) (now : Nat) : SnapClient :=
  let v := c.snapshotVersion + 1
  { snapshotVersion := v
    snapshot :=
      { panel := u.panelInfo.getD c.snapshot.panel
        tableInfo := u.tableInfo.getD c.snapshot.tableInfo
        areas := orKeepMap u.areas c.snapshot.areas
        zones := orKeepMap u.zones c.snapshot.zones
        outputs := orKeepMap u.outputs c.snapshot.outputs
        version := v
        updatedAt := now } }

/-- A sequence of _replace_snapshot calls (update, tick) applied in order. -/
def runReplacements (c : SnapClient) : List (SnapshotUpdates × Nat) → SnapClient
  | [] => c
  | (u, t) :: rest => runReplacements (replaceSnapshot c u t) rest

/-- The snapshot a consumer obtained after the first i replacement calls of a
history. -/
def snapshotAt (us : List (SnapshotUpdates × Nat)) (i : Nat) : PanelSnapshot :=
  (runReplacements initialSnapClient (us.take i)).snapshot

/-- An update record supplying no fields, as in a call of _replace_snapshot
with every keyword argument omitted. -/
def noUpdates : SnapshotUpdates :=
  { panelInfo := none, tableInfo := none, areas := none, zones := none,
    outputs := none }

/-! ## C4: bootstrap readiness gating (client.py:280-286, 523-560, 620-627)

Elke27Client tracks, per gating domain (area, zone, output), an
inventory-ready flag, a status-pending id set and a status-ready flag.
_mark_inventory_ready and _mark_status_seen are driven by kernel events in
_handle_kernel_event (client.py:719-738); the events therefore carry the
configured id set respectively the observed status ids.  Pending id sets are
modelled as lists of ids. -/

inductive GatingDomain where
  | area
  | zone
  | output
deriving DecidableEq, Repr

/-- Per-domain entries of self._inventory_ready, self._status_pending and
self._status_ready (client.py:280-286). -/
structure DomainTracker where
  inventoryReady : Bool
  statusPending : List Nat
  statusReady : Bool
deriving DecidableEq, Repr

/-- The three gating-domain trackers of the client. -/
structure BootstrapState where
  area : DomainTracker
  zone : DomainTracker
  output : DomainTracker
deriving DecidableEq, Repr

/-- Tracker state set up by Elke27Client.__init__ and
_reset_bootstrap_state: nothing ready, nothing pending. -/
def initTracker : DomainTracker :=
  { inventoryReady := false, statusPending := [], statusReady := false }

/-- Bootstrap state set up by Elke27Client.__init__ (client.py:280-286). -/
def initBootstrap : BootstrapState :=
  { area := initTracker, zone := initTracker, output := initTracker }

def BootstrapState.get (s : BootstrapState) : GatingDomain → DomainTracker
  | GatingDomain.area => s.area
  | GatingDomain.zone => s.zone
  | GatingDomain.output => s.output

def BootstrapState.update (s : BootstrapState) (d : GatingDomain)
    (f : DomainTracker → DomainTracker) : BootstrapState :=
  match d with
  | GatingDomain.area => { s with area := f s.area }
  | GatingDomain.zone => { s with zone := f s.zone }
  | GatingDomain.output => { s with output := f s.output }

/-- Elke27Client._mark_inventory_ready (client.py:539-559) restricted to one
tracker: a repeated inventory-ready event is ignored; otherwise the pending
set is reset to the configured ids and the domain is status-ready exactly
when that set is empty.  (The attribute/status requests issued in the
non-empty branch are outbound traffic and not part of the tracker state.) -/
def trackerInventoryReady (configured : List Nat) (t : DomainTracker) :
    DomainTracker :=
  if t.inventoryReady then t
  else
    { inventoryReady := true
      statusPending := configured
      statusReady := configured.isEmpty }

/-- Elke27Client._mark_status_seen (client.py:620-627) restricted to one
tracker: the observed ids are removed from the pending set and the domain
becomes status-ready when the set empties. -/
def trackerStatusSeen (ids : List Nat) (t : DomainTracker) : DomainTracker :=
  { t with
      statusPending := t.statusPending.filter (fun x => !(ids.contains x))
      statusReady :=
        if (t.statusPending.filter (fun x => !(ids.contains x))).isEmpty then
          true
        else t.statusReady }

/-- The readiness-relevant kernel events dispatched by _handle_kernel_event
(client.py:719-738): per-domain configured-inventory-ready markers and
(possibly bulk) status updates. -/
inductive BootstrapEvent where
  | inventoryReady (d : GatingDomain) (configured : List Nat)
  | statusSeen (d : GatingDomain) (ids : List Nat)
deriving DecidableEq, Repr

def stepBootstrap (s : BootstrapState) : BootstrapEvent → BootstrapState
  | BootstrapEvent.inventoryReady d configured =>
      s.update d (trackerInventoryReady configured)
  | BootstrapEvent.statusSeen d ids => s.update d (trackerStatusSeen ids)

/-- The bootstrap state after a sequence of kernel events, starting from the
freshly initialized client. -/
def runBootstrap (es : List BootstrapEvent) : BootstrapState :=
  es.foldl stepBootstrap initBootstrap

/-- Elke27Client._bootstrap_ready (client.py:523-524): every inventory-ready
flag and every status-ready flag is set. -/
def bootstrapReady (s : BootstrapState) : Bool :=
  (s.area.inventoryReady && s.zone.inventoryReady && s.output.inventoryReady)
    && (s.area.statusReady && s.zone.statusReady && s.output.statusReady)

/-- Elke27Client.ready (client.py:298-300): the kernel-level readiness flag
conjoined with _bootstrap_ready.  The kernel flag is passed in abstractly.
Modelled from the spec: E27Kernel.ready itself (kernel.py is absent from
src/) is the connection-level readiness of §4.3, which the claim presumes to
hold. -/
def clientReady (kernelReady : Bool) (s : BootstrapState) : Bool :=
  kernelReady && bootstrapReady s

/-- Invariant relating the status-ready flag to the pending set once the
inventory-ready event has fired for a tracker. -/
def trackerInv (t : DomainTracker) : Prop :=
  t.inventoryReady = true → (t.statusReady = true ↔ t.statusPending = [])

/-- The tracker invariant for all three gating domains. -/
def stateInv (s : BootstrapState) : Prop :=
  trackerInv s.area ∧ trackerInv s.zone ∧ trackerInv s.output

/-- The §8 wait_ready scenario: configured ids are exactly id 1 in each of
the three gating domains; inventory-ready fires for all three domains and
then a status update arrives for each configured id. -/
def scenarioTrace : List BootstrapEvent :=
  [ BootstrapEvent.inventoryReady GatingDomain.area [1],
    BootstrapEvent.inventoryReady GatingDomain.zone [1],
    BootstrapEvent.inventoryReady GatingDomain.output [1],
    BootstrapEvent.statusSeen GatingDomain.area [1],
    BootstrapEvent.statusSeen GatingDomain.zone [1],
    BootstrapEvent.statusSeen GatingDomain.output [1] ]

/-! ## C7: keypad attribute patch semantics (handlers/keypad.py:226-263)

_apply_keypad_attribs mutates a KeypadState with patch semantics: the typed
fields name, area, zone_id, source_id, device_id and flags are applied only
when present (and of the expected type), every other payload key lands in the
open fields dict, and a changed-keys set records what actually differed.  The
mutation is modelled as a function returning the new state and the changed
keys in insertion order. -/

/-- KeypadState from states.py:132-142.  The last_update_at timestamp is set
by the handler, not by _apply_keypad_attribs, and is omitted here. -/
structure KeypadState where
  keypadId : Int
  name : Option String := none
  area : Option Int := none
  zoneId : Option Int := none
  sourceId : Option Int := none
  deviceId : Option String := none
  flags : Option (List Value) := none
  fields : List (String × Value) := []
deriving DecidableEq, Repr

/-- _normalize_name from handlers/keypad.py:219-223: None stays None, other
values are rendered with str and stripped, an empty result becomes None. -/
def normalizeName : Value → Option String
  | Value.vNull => none
  | v => if (pyStrOfValue v).trim = "" then none else some (pyStrOfValue v).trim

/-- The keys skipped by the open-fields loop of _apply_keypad_attribs
(handlers/keypad.py:258-260). -/
def keypadSkipKeys : List String :=
  ["keypad_id", "error_code", "name", "area", "zone_id", "source_id",
   "device_id", "flags"]

/-- The name branch of _apply_keypad_attribs: present values are normalized
and applied when they differ; the Bool reports whether "name" was added to
the changed set. -/
def stepName (payload : List (String × Value)) (kp : KeypadState) :
    KeypadState × Bool :=
  match assocGet payload "name" with
  | none => (kp, false)
  | some v =>
      if kp.name = normalizeName v then (kp, false)
      else ({ kp with name := normalizeName v }, true)

/-- The area branch of _apply_keypad_attribs: applied only for an int value
that differs. -/
def stepArea (payload : List (String × Value)) (kp : KeypadState) :
    KeypadState × Bool :=
  match assocGet payload "area" with
  | some (Value.vInt a) =>
      if kp.area = some a then (kp, false)
      else ({ kp with area := some a }, true)
  | _ => (kp, false)

/-- The zone_id branch of _apply_keypad_attribs. -/
def stepZoneId (payload : List (String × Value)) (kp : KeypadState) :
    KeypadState × Bool :=
  match assocGet payload "zone_id" with
  | some (Value.vInt z) =>
      if kp.zoneId = some z then (kp, false)
      else ({ kp with zoneId := some z }, true)
  | _ => (kp, false)

/-- The source_id branch of _apply_keypad_attribs. -/
def stepSourceId (payload : List (String × Value)) (kp : KeypadState) :
    KeypadState × Bool :=
  match assocGet payload "source_id" with
  | some (Value.vInt s) =>
      if kp.sourceId = some s then (kp, false)
      else ({ kp with sourceId := some s }, true)
  | _ => (kp, false)

/-- The device_id branch of _apply_keypad_attribs: applied only for a string
value that differs. -/
def stepDeviceId (payload : List (String × Value)) (kp : KeypadState) :
    KeypadState × Bool :=
  match assocGet payload "device_id" with
  | some (Value.vStr d) =>
      if kp.deviceId = some d then (kp, false)
      else ({ kp with deviceId := some d }, true)
  | _ => (kp, false)

/-- The flags branch of _apply_keypad_attribs: applied only for a list value
that differs. -/
def stepFlags (payload : List (String × Value)) (kp : KeypadState) :
    KeypadState × Bool :=
  match assocGet payload "flags" with
  | some (Value.vList xs) =>
      if kp.flags = some xs then (kp, false)
      else ({ kp with flags := some xs }, true)
  | _ => (kp, false)

/-- The open-fields loop of _apply_keypad_attribs (handlers/keypad.py:258-263):
every non-skipped payload key whose value differs from fields.get(key) is
written into the fields dict and recorded as changed. -/
def applyExtraFields (fields : List (String × Value)) :
    List (String × Value) → List (String × Value) × List String
  | [] => (fields, [])
  | (k, v) :: rest =>
      if k ∈ keypadSkipKeys then applyExtraFields fields rest
      else if pyGet fields k = v then applyExtraFields fields rest
      else
        ((applyExtraFields (assocSet fields k v) rest).1,
          k :: (applyExtraFields (assocSet fields k v) rest).2)

/-- _apply_keypad_attribs from handlers/keypad.py:226-263: the six typed
branches in source order, then the open-fields loop; the changed keys are
collected in the order the source adds them. -/
def applyKeypadAttribs (kp0 : KeypadState) (payload : List (String × Value)) :
    KeypadState × List String :=
  let s1 := stepName payload kp0
  let s2 := stepArea payload s1.1
  let s3 := stepZoneId payload s2.1
  let s4 := stepSourceId payload s3.1
  let s5 := stepDeviceId payload s4.1
  let s6 := stepFlags payload s5.1
  let extra := applyExtraFields s6.1.fields payload
  ({ s6.1 with fields := extra.1 },
    (if s1.2 then ["name"] else []) ++ (if s2.2 then ["area"] else []) ++
      (if s3.2 then ["zone_id"] else []) ++
      (if s4.2 then ["source_id"] else []) ++
      (if s5.2 then ["device_id"] else []) ++
      (if s6.2 then ["flags"] else []) ++ extra.2)

/-! ## C6: error-code short circuit in response handlers
(handlers/system.py:28-90, handlers/keypad.py:107-167)

A response handler first locates the domain object and the command payload;
a non-zero integer error code (looked up in the payload with the domain
object as fallback) short-circuits all state mutation and emits exactly one
event — authorization-required for code 11008, API-error otherwise — while
still reporting handled. -/

/-- The two events a handler emits on an error code; header fields that the
kernel overwrites at emission time are omitted. -/
inductive EmittedEvent where
  | authorizationRequired (errorCode : Int) (scope : String)
      (entityId : Option Int)
  | apiError (errorCode : Int) (scope : String) (entityId : Option Int)
deriving DecidableEq, Repr

/-- Python isinstance(x, Mapping) narrowing on an optional payload value. -/
def asObj : Option Value → Option (List (String × Value))
  | some (Value.vObj o) => some o
  | _ => none

/-- Payload resolution of _handle_system_command (handlers/system.py:42-46):
the command key, then the alternate command key if the first value is not a
mapping. -/
def resolvePayload (systemObj : List (String × Value)) (command : String)
    (alt : Option String) : Option (List (String × Value)) :=
  match asObj (assocGet systemObj command) with
  | some p => some p
  | none =>
      match alt with
      | some a => asObj (assocGet systemObj a)
      | none => none

/-- The error-code lookup of the handlers (handlers/system.py:48-49,
handlers/keypad.py:120-121): payload.get with the domain object value as
default, yielding the code only when it is a non-zero int. -/
def errorCodeOf (domainObj p : List (String × Value)) : Option Int :=
  match (assocGet p "error_code").getD (pyGet domainObj "error_code") with
  | Value.vInt e => if e ≠ 0 then some e else none
  | _ => none

/-- An integer payload field with Python isinstance(value, int) narrowing. -/
def intFieldOf (p : List (String × Value)) (key : String) : Option Int :=
  match assocGet p key with
  | some (Value.vInt n) => some n
  | _ => none

/-- The PanelState fields touched by the system-domain handlers: the
system_status scratch dict and the panel last-message timestamp. -/
structure SystemStateModel where
  systemStatus : List (String × Value)
  lastMessageAt : Option Nat
deriving DecidableEq, Repr

/-- The state mutation of _handle_system_command on the no-error path
(handlers/system.py:84-89): store a copy of the payload under the command
key, mirror a list-valued troubles field for the trouble commands, stamp the
panel timestamp. -/
def applySystemPayload (st : SystemStateModel) (now : Nat) (command : String)
    (p : List (String × Value)) : SystemStateModel :=
  let s1 := assocSet st.systemStatus command (Value.vObj p)
  let s2 :=
    if command = "get_trouble" ∨ command = "get_troubles" then
      match assocGet p "troubles" with
      | some (Value.vList ts) => assocSet s1 "troubles" (Value.vList ts)
      | _ => s1
    else s1
  { systemStatus := s2, lastMessageAt := some now }

/-- _handle_system_command from handlers/system.py:28-90. -/
def handleSystemCommand (st : SystemStateModel) (now : Nat)
    (msg : List (String × Value)) (command : String) (alt : Option String) :
    SystemStateModel × List EmittedEvent × Bool :=
  match asObj (assocGet msg "system") with
  | none => (st, [], false)
  | some systemObj =>
      match resolvePayload systemObj command alt with
      | none => (st, [], false)
      | some p =>
          match errorCodeOf systemObj p with
          | some e =>
              if e = 11008 then
                (st, [EmittedEvent.authorizationRequired e "system" none], true)
              else (st, [EmittedEvent.apiError e "system" none], true)
          | none => (applySystemPayload st now command p, [], true)

/-- The PanelState fields touched by handler_keypad_get_attribs: the keypad
map and the panel last-message timestamp. -/
structure KeypadDomainState where
  keypads : List (Int × KeypadState)
  lastMessageAt : Option Nat
deriving DecidableEq, Repr

def keypadLookup : List (Int × KeypadState) → Int → Option KeypadState
  | [], _ => none
  | (i, kp) :: rest, kid => if i = kid then some kp else keypadLookup rest kid

def keypadStore : List (Int × KeypadState) → Int → KeypadState →
    List (Int × KeypadState)
  | [], kid, kp => [(kid, kp)]
  | (i, old) :: rest, kid, kp =>
      if i = kid then (i, kp) :: rest else (i, old) :: keypadStore rest kid kp

/-- PanelState.get_or_create_keypad from states.py:309: the stored keypad or
a fresh KeypadState carrying only its id. -/
def getOrCreateKeypad (ks : List (Int × KeypadState)) (kid : Int) :
    KeypadState :=
  (keypadLookup ks kid).getD { keypadId := kid }

/-- handler_keypad_get_attribs from handlers/keypad.py:107-167: domain and
payload narrowing, error-code short circuit with the keypad id as entity,
then keypad-id validation and the patch application of
_apply_keypad_attribs plus timestamping. -/
def handlerKeypadGetAttribs (st : KeypadDomainState) (now : Nat)
    (msg : List (String × Value)) :
    KeypadDomainState × List EmittedEvent × Bool :=
  match asObj (assocGet msg "keypad") with
  | none => (st, [], false)
  | some keypadObj =>
      match asObj (assocGet keypadObj "get_attribs") with
      | none => (st, [], false)
      | some p =>
          match errorCodeOf keypadObj p with
          | some e =>
              if e = 11008 then
                (st,
                  [EmittedEvent.authorizationRequired e "keypad"
                    (intFieldOf p "keypad_id")], true)
              else
                (st,
                  [EmittedEvent.apiError e "keypad" (intFieldOf p "keypad_id")],
                  true)
          | none =>
              match intFieldOf p "keypad_id" with
              | none => (st, [], false)
              | some kid =>
                  if kid < 1 then (st, [], false)
                  else
                    ({ keypads :=
                        keypadStore st.keypads kid
                          (applyKeypadAttribs (getOrCreateKeypad st.keypads kid)
                            p).1
                       lastMessageAt := some now }, [], true)

/-- The error-code lookup of handler_keypad_get_table_info
(handlers/keypad.py:185-186): payload.get only, with no domain-object
fallback, yielding the code only when it is a non-zero int. -/
def errorCodeOfPayload (p : List (String × Value)) : Option Int :=
  match assocGet p "error_code" with
  | some (Value.vInt e) => if e ≠ 0 then some e else none
  | _ => none

/-- The PanelState fields touched by handler_keypad_get_table_info: the
keypad entry of table_info_by_domain and the panel last-message timestamp. -/
structure KeypadTableState where
  tableInfoKeypad : Option (List (String × Value))
  lastMessageAt : Option Nat
deriving DecidableEq, Repr

/-- handler_keypad_get_table_info from handlers/keypad.py:170-208: payload
under get_table_info, falling back to table_info only when the first key is
absent; any non-zero integer error code emits a generic ApiError — there is
no authorization-required branch in this handler — and reports handled;
otherwise the payload is stored as the keypad table info and the panel
timestamp is stamped. -/
def handlerKeypadGetTableInfo (st : KeypadTableState) (now : Nat)
    (msg : List (String × Value)) :
    KeypadTableState × List EmittedEvent × Bool :=
  match asObj (assocGet msg "keypad") with
  | none => (st, [], false)
  | some keypadObj =>
      match asObj
        (match assocGet keypadObj "get_table_info" with
          | some v => some v
          | none => assocGet keypadObj "table_info") with
      | none => (st, [], false)
      | some p =>
          match errorCodeOfPayload p with
          | some e => (st, [EmittedEvent.apiError e "keypad" none], true)
          | none =>
              ({ tableInfoKeypad := some p, lastMessageAt := some now }, [],
                true)

/-! ## C5: local permission gate of async_execute
(client.py:1085-1112, 1583-1590, 1614-1624)

Before building and sending a gated command, async_execute runs
_enforce_permissions (which inspects only the presence of a session id), then
the all-areas-disarmed requirement, then the PIN requirement.  The
authenticated role set via set_authenticated_role is stored on the client but
is not read anywhere on this path. -/

/-- The authenticated roles accepted by set_authenticated_role
(client.py:306-310). -/
inductive Role where
  | anyUser
  | master
  | installer
deriving DecidableEq, Repr

/-- A rank for comparing an optional authenticated role with a required
minimum privilege. -/
def roleRank : Option Role → Nat
  | none => 0
  | some Role.anyUser => 1
  | some Role.master => 2
  | some Role.installer => 3

/-- Modelled from the spec: permissions.py is absent from src/.  Per §4.5 a
command's permission level carries its minimum privilege level, whether it
requires a PIN, and whether it requires all areas disarmed;
requires_pin/requires_disarmed read those attributes. -/
structure PermissionLevel where
  minRole : Role
  needsPin : Bool
  needsDisarmed : Bool
deriving DecidableEq, Repr

/-- Modelled from the spec: requires_pin from permissions.py. -/
def requiresPin (lvl : PermissionLevel) : Bool := lvl.needsPin

/-- Modelled from the spec: requires_disarmed from permissions.py. -/
def requiresDisarmed (lvl : PermissionLevel) : Bool := lvl.needsDisarmed

/-- Python str.lower(), working on the character list so that concrete
instances evaluate. -/
def pyLower (s : String) : String := ⟨s.data.map Char.toLower⟩

/-- Python str.isdigit(): non-empty and all digits. -/
def pyIsDigit (s : String) : Bool := !s.data.isEmpty && s.data.all Char.isDigit

/-- The two arm-state strings _all_areas_disarmed reads from an AreaState
(states.py:51-55). -/
structure AreaArmView where
  armState : Option String
  armedState : Option String
deriving DecidableEq, Repr

/-- Python a or b on optional strings: an empty string is falsy. -/
def pyOrStr (a b : Option String) : Option String :=
  match a with
  | some s => if s = "" then b else some s
  | none => b

/-- Elke27Client._all_areas_disarmed from client.py:1614-1624: false for an
empty area map; otherwise every area must carry a string arm state whose
lowercase form is disarmed. -/
def allAreasDisarmed (areas : List AreaArmView) : Bool :=
  match areas with
  | [] => false
  | _ =>
      areas.all fun a =>
        match pyOrStr a.armState a.armedState with
        | some s => pyLower s = "disarmed"
        | none => false

/-- The shapes a pin keyword argument can take in async_execute
(client.py:1101-1112). -/
inductive PinParam where
  | absent
  | pstr (s : String)
  | pint (n : Int)
  | pother
deriving DecidableEq, Repr

/-- The local failures the gate can produce, one per distinct error type
raised in client.py:1085-1112. -/
inductive GateFailure where
  | notAuthenticated
  | permissionDeniedDisarmed
  | pinRequired
  | invalidPin
deriving DecidableEq, Repr

/-- Elke27Client._enforce_permissions from client.py:1583-1590: only the
presence of a session id is inspected; the min_permission argument is
accepted but not consulted, exactly as in the source. -/
def enforcePermissions (sessionId : Option Int)
    (minPermission : PermissionLevel) : Option GateFailure :=
  if sessionId = none then some GateFailure.notAuthenticated else none

/-- The PIN validation of async_execute (client.py:1101-1112): missing or
empty is pin-required; a non-digit string, a non-positive int, or any other
type is invalid-pin. -/
def checkPin : PinParam → Option GateFailure
  | PinParam.absent => some GateFailure.pinRequired
  | PinParam.pstr s =>
      if s = "" then some GateFailure.pinRequired
      else if pyIsDigit s then none
      else some GateFailure.invalidPin
  | PinParam.pint n =>
      if n ≤ 0 then some GateFailure.invalidPin else none
  | PinParam.pother => some GateFailure.invalidPin

/-- The client state the gate reads: session id, area arm states, and the
stored authenticated role (client.py:278, 306-310). -/
structure GateContext where
  sessionId : Option Int
  areas : List AreaArmView
  authRole : Option Role
deriving DecidableEq, Repr

/-- The local gate of async_execute in source order (client.py:1091-1112):
session check, then the disarmed requirement, then the PIN requirement. -/
def executeGate (ctx : GateContext) (lvl : PermissionLevel) (pin : PinParam) :
    Option GateFailure :=
  match enforcePermissions ctx.sessionId lvl with
  | some err => some err
  | none =>
      if requiresDisarmed lvl && !(allAreasDisarmed ctx.areas) then
        some GateFailure.permissionDeniedDisarmed
      else if requiresPin lvl then checkPin pin
      else none

/-- async_execute up to the transmission point: a gate failure returns
before _send_request_with_seq, so the transmission count is 0; otherwise the
request is sent once (client.py:1114-1202). -/
def executeWithGate (ctx : GateContext) (lvl : PermissionLevel)
    (pin : PinParam) : Option GateFailure × Nat :=
  match executeGate ctx lvl pin with
  | some err => (some err, 0)
  | none => (none, 1)

/-! ## C3: timeout measured from the confirmed send
(client.py:1176-1216; test/test_timeout_start_on_send.py)

The single-response path of async_execute creates a pending entry, registers
a sent-event for the sequence, transmits exactly once, awaits the sent-event
(which the session fires from its on_sent callback once the bytes are
confirmed sent) and only then awaits the response future under the timeout;
a timeout drops the pending entry and returns a Timeout failure, with no
second transmission.  Times are rationals standing in for the float clock. -/

/-- Modelled from the spec: PendingResponseManager.create (pending.py is
absent from src/) registers a pending entry for the sequence. -/
def pendingCreate (reg : List Int) (seq : Int) : List Int := seq :: reg

/-- Modelled from the spec: PendingResponseManager.drop and the resolution
of a pending entry (pending.py is absent from src/) remove the entry so that
none is left dangling. -/
def pendingRemove (reg : List Int) (seq : Int) : List Int :=
  reg.filter (fun s => s ≠ seq)

/-- The externally determined timing of one request: when the session
confirms the bytes sent, and when (if ever) the matching reply resolves the
response future. -/
structure SendEnvironment where
  sentAt : ℚ
  replyAt : Option ℚ
deriving DecidableEq

inductive ExecOutcome where
  | success
  | timeoutFailure
deriving DecidableEq, Repr

/-- The observable result of one async_execute single-response round:
outcome, the effective response deadline, the pending registry afterwards,
and every transmission made for the sequence. -/
structure ExecTrace where
  outcome : ExecOutcome
  deadline : ℚ
  pendingAfter : List Int
  sends : List Int
deriving DecidableEq

/-- The single-response await structure of async_execute
(client.py:1176-1216): create the pending entry, transmit once, resume at
the confirmed-send instant, and measure the full timeout budget from that
instant; resolution and timeout both clear the pending entry, and a timeout
is never followed by a retransmission.  The enqueue instant is carried to
show it plays no role in the deadline. -/
def runSingleExec (enqueuedAt : ℚ) (env : SendEnvironment) (seq : Int)
    (timeoutS : ℚ) : ExecTrace :=
  let reg1 := pendingCreate [] seq
  let sends := [seq]
  let deadline := env.sentAt + timeoutS
  match env.replyAt with
  | some t =>
      if t ≤ deadline then
        { outcome := ExecOutcome.success, deadline := deadline,
          pendingAfter := pendingRemove reg1 seq, sends := sends }
      else
        { outcome := ExecOutcome.timeoutFailure, deadline := deadline,
          pendingAfter := pendingRemove reg1 seq, sends := sends }
  | none =>
      { outcome := ExecOutcome.timeoutFailure, deadline := deadline,
        pendingAfter := pendingRemove reg1 seq, sends := sends }

/-! ## C1: paged command execution and block merging (client.py:1232-1332,
1645-1652; test/test_e27_async_execute_paged.py)

The paged_blocks branch of async_execute requests block after block starting
at the route's first block index, learns the declared block count from the
first response that declares one, treats a later declared count that differs
as a protocol error, stops once the block index reaches the count, and hands
the collected blocks to the route's merge function.  The panel is modelled
as a function from block index to the extracted response payload; the loop
carries fuel, which never runs out for a well-formed response sequence. -/

/-- PagedBlock as used by client.py: block index plus payload. -/
structure PagedBlock where
  blockId : Int
  payload : List (String × Value)
deriving DecidableEq, Repr

/-- String to integer conversion for digit strings, as Python int(). -/
def strToInt (s : String) : Int :=
  (s.data.foldl (fun acc c => acc * 10 + (c.toNat - 48)) 0 : Nat)

/-- Elke27Client._coerce_block_count from client.py:1645-1652: a positive
int, or a digit string whose value is positive; anything else is None. -/
def coerceBlockCount : Option Value → Option Int
  | some (Value.vInt n) => if n ≥ 1 then some n else none
  | some (Value.vStr s) =>
      if pyIsDigit s then
        if strToInt s ≥ 1 then some (strToInt s) else none
      else none
  | _ => none

/-- Outcome of the block-request loop of async_execute: the collected blocks
with the declared count, a missing-count protocol error, a count-mismatch
protocol error, or fuel exhaustion; each records the block indices that were
requested, in order. -/
inductive PagedLoopResult where
  | blocksOk (blocks : List PagedBlock) (blockCount : Int)
      (requested : List Int)
  | missingCount (requested : List Int)
  | countMismatch (requested : List Int)
  | fuelOut (requested : List Int)
deriving DecidableEq, Repr

def PagedLoopResult.requested : PagedLoopResult → List Int
  | PagedLoopResult.blocksOk _ _ r => r
  | PagedLoopResult.missingCount r => r
  | PagedLoopResult.countMismatch r => r
  | PagedLoopResult.fuelOut r => r

/-- The while loop of the paged branch (client.py:1247-1325): request the
current block, coerce its declared count, adopt it if none is known yet
(missing on the first block is a protocol error), reject a differing
declared count, collect the block, and stop once the block index reaches
the count, else continue with the next index. -/
def pagedLoopGo (panel : Int → List (String × Value)) (countField : String) :
    Option Int → Int → List PagedBlock → List Int → Nat → PagedLoopResult
  | _, _, _, req, 0 => PagedLoopResult.fuelOut req
  | blockCountOpt, blockId, blocks, req, fuel + 1 =>
      let payload := panel blockId
      let req2 := req ++ [blockId]
      let rc := coerceBlockCount (assocGet payload countField)
      match blockCountOpt with
      | none =>
          match rc with
          | none => PagedLoopResult.missingCount req2
          | some c =>
              if blockId ≥ c then
                PagedLoopResult.blocksOk (blocks ++ [⟨blockId, payload⟩]) c req2
              else
                pagedLoopGo panel countField (some c) (blockId + 1)
                  (blocks ++ [⟨blockId, payload⟩]) req2 fuel
      | some c =>
          match rc with
          | some c2 =>
              if c2 ≠ c then PagedLoopResult.countMismatch req2
              else if blockId ≥ c then
                PagedLoopResult.blocksOk (blocks ++ [⟨blockId, payload⟩]) c req2
              else
                pagedLoopGo panel countField (some c) (blockId + 1)
                  (blocks ++ [⟨blockId, payload⟩]) req2 fuel
          | none =>
              if blockId ≥ c then
                PagedLoopResult.blocksOk (blocks ++ [⟨blockId, payload⟩]) c req2
              else
                pagedLoopGo panel countField (some c) (blockId + 1)
                  (blocks ++ [⟨blockId, payload⟩]) req2 fuel

/-- The paged loop from the route's first block index with no count known. -/
def runPagedLoop (panel : Int → List (String × Value)) (countField : String)
    (firstBlock : Int) (fuel : Nat) : PagedLoopResult :=
  pagedLoopGo panel countField none firstBlock [] [] fuel

/-- Insertion of an element into a sorted list of ints. -/
def insertSorted (x : Int) : List Int → List Int
  | [] => [x]
  | y :: ys => if x ≤ y then x :: y :: ys else y :: insertSorted x ys

/-- Python sorted() on a list of ints. -/
def sortInts (xs : List Int) : List Int := xs.foldr insertSorted []

/-- Python sorted(set(xs)). -/
def sortedDedup (xs : List Int) : List Int := sortInts xs.dedup

/-- The integer elements of a list-valued payload field. -/
def extractInts : Option Value → List Int
  | some (Value.vList xs) =>
      xs.filterMap fun v =>
        match v with
        | Value.vInt n => some n
        | _ => none
  | _ => []

/-- Modelled from the spec: make_zone_configured_merge (handlers/zone.py is
absent from src/).  Like its in-src siblings _merge_configured_outputs,
_merge_configured_users and _merge_configured_keypads (client.py:1664-1700),
it collects the integer ids listed under the zone-id keys of every block and
returns the sorted duplicate-free union together with the block count. -/
def mergeZoneConfigured (blocks : List PagedBlock) (blockCount : Int) :
    List (String × Value) :=
  let keys := ["zones", "zone_ids", "configured_zones", "configured_zone_ids"]
  let merged := blocks.foldl
    (fun acc b =>
      keys.foldl (fun acc2 key => acc2 ++ extractInts (assocGet b.payload key))
        acc)
    []
  [("zones", Value.vList ((sortedDedup merged).map Value.vInt)),
   ("block_count", Value.vInt blockCount)]

/-- Final paged result of async_execute for the zone-configured route:
merge on success, a ProtocolError failure otherwise. -/
inductive PagedExec where
  | ok (merged : List (String × Value))
  | protocolError
deriving DecidableEq, Repr

/-- The zone get_configured paged execute: first block 1, count field
block_count (client.py:1242-1332; generators/zone.py:15-18). -/
def runZoneGetConfigured (panel : Int → List (String × Value)) (fuel : Nat) :
    PagedExec :=
  match runPagedLoop panel "block_count" 1 fuel with
  | PagedLoopResult.blocksOk blocks c _ =>
      PagedExec.ok (mergeZoneConfigured blocks c)
  | _ => PagedExec.protocolError

/-- The block index sequence start, start+1, ..., start+n-1. -/
def consecutiveFrom (start : Int) (n : Nat) : List Int :=
  (List.range n).map (fun i : Nat => start + (i : Int))

/-- The §8 paged scenario: three blocks declaring block_count 3 with zone
lists [1,2], [3] and [4,5]. -/
def scenarioPanel : Int → List (String × Value) := fun b =>
  if b = 1 then
    [("block_id", Value.vInt 1), ("block_count", Value.vInt 3),
     ("zones", Value.vList [Value.vInt 1, Value.vInt 2])]
  else if b = 2 then
    [("block_id", Value.vInt 2), ("block_count", Value.vInt 3),
     ("zones", Value.vList [Value.vInt 3])]
  else if b = 3 then
    [("block_id", Value.vInt 3), ("block_count", Value.vInt 3),
     ("zones", Value.vList [Value.vInt 4, Value.vInt 5])]
  else []

/-- A panel whose second block declares block_count 2 after the first block
declared 3. -/
def mismatchPanel : Int → List (String × Value) := fun b =>
  if b = 1 then
    [("block_id", Value.vInt 1), ("block_count", Value.vInt 3),
     ("zones", Value.vList [Value.vInt 1, Value.vInt 2])]
  else if b = 2 then
    [("block_id", Value.vInt 2), ("block_count", Value.vInt 2),
     ("zones", Value.vList [Value.vInt 3])]
  else []

theorem runReplacements_version (us : List (SnapshotUpdates × Nat)) :
    ∀ c : SnapClient,
      (runReplacements c us).snapshotVersion = c.snapshotVersion + us.length := by
  induction us with
  | nil => intro c; simp [runReplacements]
  | cons hd tl ih =>
      intro c
      obtain ⟨u, t⟩ := hd
      simp [runReplacements, ih, replaceSnapshot]
      omega

theorem trackerInv_inventoryReady (configured : List Nat) (t : DomainTracker)
    (h : trackerInv t) : trackerInv (trackerInventoryReady configured t) := by
  unfold trackerInventoryReady
  split
  · exact h
  · intro _
    simp [List.isEmpty_iff]

theorem trackerInv_statusSeen (ids : List Nat) (t : DomainTracker)
    (h : trackerInv t) : trackerInv (trackerStatusSeen ids t) := by
  intro hInv
  have hInv0 : t.inventoryReady = true := hInv
  show (if (t.statusPending.filter (fun x => !(ids.contains x))).isEmpty then
          true
        else t.statusReady) = true ↔
      t.statusPending.filter (fun x => !(ids.contains x)) = []
  by_cases hEmpty :
      (t.statusPending.filter (fun x => !(ids.contains x))).isEmpty = true
  · rw [if_pos hEmpty]
    exact ⟨fun _ => List.isEmpty_iff.mp hEmpty, fun _ => rfl⟩
  · rw [if_neg hEmpty]
    have hne : ¬ t.statusPending.filter (fun x => !(ids.contains x)) = [] := by
      intro hc
      exact hEmpty (List.isEmpty_iff.mpr hc)
    constructor
    · intro hReady
      have hp : t.statusPending = [] := (h hInv0).mp hReady
      exact absurd (by simp [hp]) hne
    · intro hc
      exact absurd hc hne

theorem stateInv_step (s : BootstrapState) (e : BootstrapEvent)
    (h : stateInv s) : stateInv (stepBootstrap s e) := by
  obtain ⟨ha, hz, ho⟩ := h
  cases e with
  | inventoryReady d configured =>
      cases d
      · exact ⟨trackerInv_inventoryReady configured s.area ha, hz, ho⟩
      · exact ⟨ha, trackerInv_inventoryReady configured s.zone hz, ho⟩
      · exact ⟨ha, hz, trackerInv_inventoryReady configured s.output ho⟩
  | statusSeen d ids =>
      cases d
      · exact ⟨trackerInv_statusSeen ids s.area ha, hz, ho⟩
      · exact ⟨ha, trackerInv_statusSeen ids s.zone hz, ho⟩
      · exact ⟨ha, hz, trackerInv_statusSeen ids s.output ho⟩

theorem stateInv_runAux (es : List BootstrapEvent) :
    ∀ s : BootstrapState, stateInv s → stateInv (es.foldl stepBootstrap s) := by
  induction es with
  | nil => intro s h; exact h
  | cons e rest ih =>
      intro s h
      exact ih (stepBootstrap s e) (stateInv_step s e h)

theorem stateInv_run (es : List BootstrapEvent) : stateInv (runBootstrap es) := by
  refine stateInv_runAux es initBootstrap ?_
  refine ⟨?_, ?_, ?_⟩ <;>
    · intro h
      simp [initBootstrap, initTracker] at h

theorem bootstrapReady_flat (s : BootstrapState) :
    bootstrapReady s = true ↔
      s.area.inventoryReady = true ∧ s.zone.inventoryReady = true ∧
      s.output.inventoryReady = true ∧ s.area.statusReady = true ∧
      s.zone.statusReady = true ∧ s.output.statusReady = true := by
  simp [bootstrapReady, Bool.and_eq_true, and_assoc]

theorem bootstrapReady_iff_of_inv (s : BootstrapState) (hs : stateInv s) :
    bootstrapReady s = true ↔
      (s.area.inventoryReady = true ∧ s.area.statusPending = []) ∧
      (s.zone.inventoryReady = true ∧ s.zone.statusPending = []) ∧
      (s.output.inventoryReady = true ∧ s.output.statusPending = []) := by
  obtain ⟨ha, hz, ho⟩ := hs
  rw [bootstrapReady_flat]
  constructor
  · rintro ⟨hia, hiz, hio, hsa, hsz, hso⟩
    exact ⟨⟨hia, (ha hia).mp hsa⟩, ⟨hiz, (hz hiz).mp hsz⟩,
      ⟨hio, (ho hio).mp hso⟩⟩
  · rintro ⟨⟨hia, hpa⟩, ⟨hiz, hpz⟩, ⟨hio, hpo⟩⟩
    exact ⟨hia, hiz, hio, (ha hia).mpr hpa, (hz hiz).mpr hpz,
      (ho hio).mpr hpo⟩

theorem bootstrapReady_step_mono (s : BootstrapState) (e : BootstrapEvent)
    (hs : stateInv s) (h : bootstrapReady s = true) :
    bootstrapReady (stepBootstrap s e) = true := by
  obtain ⟨h1, h2, h3, h4, h5, h6⟩ := (bootstrapReady_flat s).mp h
  obtain ⟨ha, hz, ho⟩ := hs
  have hpa : s.area.statusPending = [] := (ha h1).mp h4
  have hpz : s.zone.statusPending = [] := (hz h2).mp h5
  have hpo : s.output.statusPending = [] := (ho h3).mp h6
  cases e with
  | inventoryReady d configured =>
      cases d <;>
        simp [stepBootstrap, BootstrapState.update, trackerInventoryReady,
          bootstrapReady, h1, h2, h3, h4, h5, h6]
  | statusSeen d ids =>
      cases d <;>
        simp [stepBootstrap, BootstrapState.update, trackerStatusSeen,
          bootstrapReady, h1, h2, h3, h4, h5, h6, hpa, hpz, hpo]

theorem pyGet_assocSet_same (f : List (String × Value)) (k : String)
    (v : Value) : pyGet (assocSet f k v) k = v := by
  induction f with
  | nil => simp [assocSet, pyGet, assocGet]
  | cons hd tl ih =>
      obtain ⟨k0, w⟩ := hd
      by_cases h : k0 = k
      · subst h
        simp [assocSet, pyGet, assocGet]
      · simp only [pyGet] at ih ⊢
        simp [assocSet, h, assocGet, ih]

theorem pyGet_assocSet_other (f : List (String × Value)) (k k1 : String)
    (v : Value) (h : k1 ≠ k) :
    pyGet (assocSet f k v) k1 = pyGet f k1 := by
  induction f with
  | nil =>
      have h2 : ¬ (k = k1) := fun hc => h hc.symm
      simp [assocSet, pyGet, assocGet, h2]
  | cons hd tl ih =>
      obtain ⟨k0, w⟩ := hd
      by_cases h0 : k0 = k
      · subst h0
        have h2 : ¬ (k0 = k1) := fun hc => h hc.symm
        simp [assocSet, pyGet, assocGet, h2]
      · by_cases h1 : k0 = k1
        · subst h1
          simp [assocSet, h0, pyGet, assocGet]
        · simp only [pyGet] at ih ⊢
          simp [assocSet, h0, h1, assocGet, ih]

theorem assocGet_eq_none_of_not_mem (p : List (String × Value)) (k : String)
    (h : k ∉ p.map Prod.fst) : assocGet p k = none := by
  induction p with
  | nil => rfl
  | cons hd tl ih =>
      obtain ⟨k0, v⟩ := hd
      simp only [List.map_cons, List.mem_cons, not_or] at h
      have hne : ¬ (k0 = k) := fun hc => h.1 hc.symm
      simp [assocGet, hne, ih h.2]

theorem applyExtraFields_changed_not_skip (p : List (String × Value)) :
    ∀ (fields : List (String × Value)) (k : String),
      k ∈ (applyExtraFields fields p).2 → k ∉ keypadSkipKeys := by
  induction p with
  | nil =>
      intro fields k hk
      simp [applyExtraFields] at hk
  | cons hd rest ih =>
      intro fields k hk
      obtain ⟨k0, v⟩ := hd
      by_cases hskip : k0 ∈ keypadSkipKeys
      · rw [show applyExtraFields fields ((k0, v) :: rest) =
            applyExtraFields fields rest by simp [applyExtraFields, hskip]] at hk
        exact ih fields k hk
      · by_cases heq : pyGet fields k0 = v
        · rw [show applyExtraFields fields ((k0, v) :: rest) =
              applyExtraFields fields rest by
                simp [applyExtraFields, hskip, heq]] at hk
          exact ih fields k hk
        · rw [show (applyExtraFields fields ((k0, v) :: rest)).2 =
              k0 :: (applyExtraFields (assocSet fields k0 v) rest).2 by
                simp [applyExtraFields, hskip, heq]] at hk
          rcases List.mem_cons.mp hk with rfl | hk2
          · exact hskip
          · exact ih (assocSet fields k0 v) k hk2

theorem applyExtraFields_frame (p : List (String × Value)) :
    ∀ (fields : List (String × Value)) (k : String),
      k ∉ p.map Prod.fst →
      pyGet (applyExtraFields fields p).1 k = pyGet fields k ∧
        k ∉ (applyExtraFields fields p).2 := by
  induction p with
  | nil =>
      intro fields k _
      simp [applyExtraFields]
  | cons hd rest ih =>
      intro fields k hk
      obtain ⟨k0, v⟩ := hd
      simp only [List.map_cons, List.mem_cons, not_or] at hk
      obtain ⟨hkne, hkrest⟩ := hk
      by_cases hskip : k0 ∈ keypadSkipKeys
      · rw [show applyExtraFields fields ((k0, v) :: rest) =
            applyExtraFields fields rest by simp [applyExtraFields, hskip]]
        exact ih fields k hkrest
      · by_cases heq : pyGet fields k0 = v
        · rw [show applyExtraFields fields ((k0, v) :: rest) =
              applyExtraFields fields rest by
                simp [applyExtraFields, hskip, heq]]
          exact ih fields k hkrest
        · rw [show applyExtraFields fields ((k0, v) :: rest) =
              ((applyExtraFields (assocSet fields k0 v) rest).1,
                k0 :: (applyExtraFields (assocSet fields k0 v) rest).2) by
                simp [applyExtraFields, hskip, heq]]
          have hih := ih (assocSet fields k0 v) k hkrest
          refine ⟨?_, ?_⟩
          · rw [hih.1, pyGet_assocSet_other fields k0 k v hkne]
          · intro hc
            rcases List.mem_cons.mp hc with rfl | hc2
            · exact hkne rfl
            · exact hih.2 hc2

theorem applyExtraFields_skip_frame (p : List (String × Value)) :
    ∀ (fields : List (String × Value)) (k : String),
      k ∈ keypadSkipKeys →
      pyGet (applyExtraFields fields p).1 k = pyGet fields k := by
  induction p with
  | nil =>
      intro fields k _
      simp [applyExtraFields]
  | cons hd rest ih =>
      intro fields k hkskip
      obtain ⟨k0, v⟩ := hd
      by_cases hskip : k0 ∈ keypadSkipKeys
      · rw [show applyExtraFields fields ((k0, v) :: rest) =
            applyExtraFields fields rest by simp [applyExtraFields, hskip]]
        exact ih fields k hkskip
      · by_cases heq : pyGet fields k0 = v
        · rw [show applyExtraFields fields ((k0, v) :: rest) =
              applyExtraFields fields rest by
                simp [applyExtraFields, hskip, heq]]
          exact ih fields k hkskip
        · rw [show (applyExtraFields fields ((k0, v) :: rest)).1 =
              (applyExtraFields (assocSet fields k0 v) rest).1 by
                simp [applyExtraFields, hskip, heq]]
          have hkne : k ≠ k0 := fun hc => hskip (hc ▸ hkskip)
          rw [ih (assocSet fields k0 v) k hkskip,
            pyGet_assocSet_other fields k0 k v hkne]

theorem applyExtraFields_changed_iff (p : List (String × Value)) :
    ∀ (fields : List (String × Value)) (k : String),
      (p.map Prod.fst).Nodup → k ∉ keypadSkipKeys →
      (k ∈ (applyExtraFields fields p).2 ↔
        pyGet (applyExtraFields fields p).1 k ≠ pyGet fields k) := by
  induction p with
  | nil =>
      intro fields k _ _
      simp [applyExtraFields]
  | cons hd rest ih =>
      intro fields k hnd hkskip
      obtain ⟨k0, v⟩ := hd
      have hnd1 : (k0 :: rest.map Prod.fst).Nodup := by simpa using hnd
      obtain ⟨hk0notin, hndrest⟩ := List.nodup_cons.mp hnd1
      by_cases hskip : k0 ∈ keypadSkipKeys
      · rw [show applyExtraFields fields ((k0, v) :: rest) =
            applyExtraFields fields rest by simp [applyExtraFields, hskip]]
        exact ih fields k hndrest hkskip
      · by_cases heq : pyGet fields k0 = v
        · rw [show applyExtraFields fields ((k0, v) :: rest) =
              applyExtraFields fields rest by
                simp [applyExtraFields, hskip, heq]]
          by_cases hkk0 : k = k0
          · subst hkk0
            have hframe := applyExtraFields_frame rest fields k hk0notin
            rw [hframe.1]
            simp [hframe.2]
          · exact ih fields k hndrest hkskip
        · rw [show applyExtraFields fields ((k0, v) :: rest) =
              ((applyExtraFields (assocSet fields k0 v) rest).1,
                k0 :: (applyExtraFields (assocSet fields k0 v) rest).2) by
                simp [applyExtraFields, hskip, heq]]
          by_cases hkk0 : k = k0
          · subst hkk0
            have hframe :=
              applyExtraFields_frame rest (assocSet fields k v) k hk0notin
            constructor
            · intro _
              rw [hframe.1, pyGet_assocSet_same fields k v]
              exact fun hc => heq hc.symm
            · intro _
              exact List.mem_cons_self k _
          · constructor
            · intro hmem
              rcases List.mem_cons.mp hmem with rfl | hmem2
              · exact absurd rfl hkk0
              · have hiff := ih (assocSet fields k0 v) k hndrest hkskip
                have hx := hiff.mp hmem2
                rw [pyGet_assocSet_other fields k0 k v hkk0] at hx
                exact hx
            · intro hne
              have hiff := ih (assocSet fields k0 v) k hndrest hkskip
              rw [pyGet_assocSet_other fields k0 k v hkk0] at hiff
              exact List.mem_cons_of_mem k0 (hiff.mpr hne)

theorem stepName_spec (p : List (String × Value)) (kp : KeypadState) :
    (stepName p kp).1.keypadId = kp.keypadId ∧
    (stepName p kp).1.area = kp.area ∧
    (stepName p kp).1.zoneId = kp.zoneId ∧
    (stepName p kp).1.sourceId = kp.sourceId ∧
    (stepName p kp).1.deviceId = kp.deviceId ∧
    (stepName p kp).1.flags = kp.flags ∧
    (stepName p kp).1.fields = kp.fields ∧
    ((stepName p kp).2 = true ↔ (stepName p kp).1.name ≠ kp.name) ∧
    (assocGet p "name" = none → (stepName p kp).1.name = kp.name) := by
  rcases h : assocGet p "name" with _ | v
  · simp [stepName, h]
  · by_cases he : kp.name = normalizeName v
    · simp [stepName, h, he]
    · simp only [stepName, h]
      rw [if_neg he]
      refine ⟨rfl, rfl, rfl, rfl, rfl, rfl, rfl, ?_, by intro hc; cases hc⟩
      constructor
      · intro _ hc
        exact he hc.symm
      · intro _
        rfl

theorem stepArea_spec (p : List (String × Value)) (kp : KeypadState) :
    (stepArea p kp).1.keypadId = kp.keypadId ∧
    (stepArea p kp).1.name = kp.name ∧
    (stepArea p kp).1.zoneId = kp.zoneId ∧
    (stepArea p kp).1.sourceId = kp.sourceId ∧
    (stepArea p kp).1.deviceId = kp.deviceId ∧
    (stepArea p kp).1.flags = kp.flags ∧
    (stepArea p kp).1.fields = kp.fields ∧
    ((stepArea p kp).2 = true ↔ (stepArea p kp).1.area ≠ kp.area) ∧
    (assocGet p "area" = none → (stepArea p kp).1.area = kp.area) := by
  rcases h : assocGet p "area" with _ | v
  · simp [stepArea, h]
  · cases v with
    | vInt a =>
        by_cases he : kp.area = some a
        · simp [stepArea, h, he]
        · simp only [stepArea, h]
          rw [if_neg he]
          refine ⟨rfl, rfl, rfl, rfl, rfl, rfl, rfl, ?_, by intro hc; cases hc⟩
          constructor
          · intro _ hc
            exact he hc.symm
          · intro _
            rfl
    | vNull => simp [stepArea, h]
    | vStr s => simp [stepArea, h]
    | vBool b => simp [stepArea, h]
    | vList xs => simp [stepArea, h]
    | vObj o => simp [stepArea, h]

theorem stepZoneId_spec (p : List (String × Value)) (kp : KeypadState) :
    (stepZoneId p kp).1.keypadId = kp.keypadId ∧
    (stepZoneId p kp).1.name = kp.name ∧
    (stepZoneId p kp).1.area = kp.area ∧
    (stepZoneId p kp).1.sourceId = kp.sourceId ∧
    (stepZoneId p kp).1.deviceId = kp.deviceId ∧
    (stepZoneId p kp).1.flags = kp.flags ∧
    (stepZoneId p kp).1.fields = kp.fields ∧
    ((stepZoneId p kp).2 = true ↔ (stepZoneId p kp).1.zoneId ≠ kp.zoneId) ∧
    (assocGet p "zone_id" = none → (stepZoneId p kp).1.zoneId = kp.zoneId) := by
  rcases h : assocGet p "zone_id" with _ | v
  · simp [stepZoneId, h]
  · cases v with
    | vInt z =>
        by_cases he : kp.zoneId = some z
        · simp [stepZoneId, h, he]
        · simp only [stepZoneId, h]
          rw [if_neg he]
          refine ⟨rfl, rfl, rfl, rfl, rfl, rfl, rfl, ?_, by intro hc; cases hc⟩
          constructor
          · intro _ hc
            exact he hc.symm
          · intro _
            rfl
    | vNull => simp [stepZoneId, h]
    | vStr s => simp [stepZoneId, h]
    | vBool b => simp [stepZoneId, h]
    | vList xs => simp [stepZoneId, h]
    | vObj o => simp [stepZoneId, h]

theorem stepSourceId_spec (p : List (String × Value)) (kp : KeypadState) :
    (stepSourceId p kp).1.keypadId = kp.keypadId ∧
    (stepSourceId p kp).1.name = kp.name ∧
    (stepSourceId p kp).1.area = kp.area ∧
    (stepSourceId p kp).1.zoneId = kp.zoneId ∧
    (stepSourceId p kp).1.deviceId = kp.deviceId ∧
    (stepSourceId p kp).1.flags = kp.flags ∧
    (stepSourceId p kp).1.fields = kp.fields ∧
    ((stepSourceId p kp).2 = true ↔
      (stepSourceId p kp).1.sourceId ≠ kp.sourceId) ∧
    (assocGet p "source_id" = none →
      (stepSourceId p kp).1.sourceId = kp.sourceId) := by
  rcases h : assocGet p "source_id" with _ | v
  · simp [stepSourceId, h]
  · cases v with
    | vInt s =>
        by_cases he : kp.sourceId = some s
        · simp [stepSourceId, h, he]
        · simp only [stepSourceId, h]
          rw [if_neg he]
          refine ⟨rfl, rfl, rfl, rfl, rfl, rfl, rfl, ?_, by intro hc; cases hc⟩
          constructor
          · intro _ hc
            exact he hc.symm
          · intro _
            rfl
    | vNull => simp [stepSourceId, h]
    | vStr s => simp [stepSourceId, h]
    | vBool b => simp [stepSourceId, h]
    | vList xs => simp [stepSourceId, h]
    | vObj o => simp [stepSourceId, h]

theorem stepDeviceId_spec (p : List (String × Value)) (kp : KeypadState) :
    (stepDeviceId p kp).1.keypadId = kp.keypadId ∧
    (stepDeviceId p kp).1.name = kp.name ∧
    (stepDeviceId p kp).1.area = kp.area ∧
    (stepDeviceId p kp).1.zoneId = kp.zoneId ∧
    (stepDeviceId p kp).1.sourceId = kp.sourceId ∧
    (stepDeviceId p kp).1.flags = kp.flags ∧
    (stepDeviceId p kp).1.fields = kp.fields ∧
    ((stepDeviceId p kp).2 = true ↔
      (stepDeviceId p kp).1.deviceId ≠ kp.deviceId) ∧
    (assocGet p "device_id" = none →
      (stepDeviceId p kp).1.deviceId = kp.deviceId) := by
  rcases h : assocGet p "device_id" with _ | v
  · simp [stepDeviceId, h]
  · cases v with
    | vStr d =>
        by_cases he : kp.deviceId = some d
        · simp [stepDeviceId, h, he]
        · simp only [stepDeviceId, h]
          rw [if_neg he]
          refine ⟨rfl, rfl, rfl, rfl, rfl, rfl, rfl, ?_, by intro hc; cases hc⟩
          constructor
          · intro _ hc
            exact he hc.symm
          · intro _
            rfl
    | vNull => simp [stepDeviceId, h]
    | vInt n => simp [stepDeviceId, h]
    | vBool b => simp [stepDeviceId, h]
    | vList xs => simp [stepDeviceId, h]
    | vObj o => simp [stepDeviceId, h]

theorem stepFlags_spec (p : List (String × Value)) (kp : KeypadState) :
    (stepFlags p kp).1.keypadId = kp.keypadId ∧
    (stepFlags p kp).1.name = kp.name ∧
    (stepFlags p kp).1.area = kp.area ∧
    (stepFlags p kp).1.zoneId = kp.zoneId ∧
    (stepFlags p kp).1.sourceId = kp.sourceId ∧
    (stepFlags p kp).1.deviceId = kp.deviceId ∧
    (stepFlags p kp).1.fields = kp.fields ∧
    ((stepFlags p kp).2 = true ↔ (stepFlags p kp).1.flags ≠ kp.flags) ∧
    (assocGet p "flags" = none → (stepFlags p kp).1.flags = kp.flags) := by
  rcases h : assocGet p "flags" with _ | v
  · simp [stepFlags, h]
  · cases v with
    | vList xs =>
        by_cases he : kp.flags = some xs
        · simp [stepFlags, h, he]
        · simp only [stepFlags, h]
          rw [if_neg he]
          refine ⟨rfl, rfl, rfl, rfl, rfl, rfl, rfl, ?_, by intro hc; cases hc⟩
          constructor
          · intro _ hc
            exact he hc.symm
          · intro _
            rfl
    | vNull => simp [stepFlags, h]
    | vInt n => simp [stepFlags, h]
    | vStr s => simp [stepFlags, h]
    | vBool b => simp [stepFlags, h]
    | vObj o => simp [stepFlags, h]

theorem mem_ite_singleton (b : Bool) (x a : String) :
    (a ∈ (if b = true then [x] else [])) ↔ (b = true ∧ a = x) := by
  cases b <;> simp

/-! ## Claim theorems for C2 and C10 -/

/-- C2: the first allocated outbound envelope sequence value is 1; for every
current value v with 1 ≤ v < 2147483647 the next allocated value is v + 1;
and allocating past 2147483647 wraps to 1, never to 0. -/
theorem envelope_seq_allocation_spec :
    initialTxEnvelopeSeq = 1 ∧
    (∀ v : Int, 1 ≤ v → v < 2147483647 → nextEnvelopeSeq v = v + 1) ∧
    nextEnvelopeSeq 2147483647 = 1 ∧
    nextEnvelopeSeq 2147483647 ≠ 0 := by
  refine ⟨rfl, ?_, by decide, by decide⟩
  intro v h1 h2
  simp only [nextEnvelopeSeq, wrapSeq]
  rw [if_neg (by omega), if_neg (by omega)]

/-- Witness for C2: the allocation step evaluates as stated at v = 5. -/
theorem envelope_seq_allocation_spec_witness :
    nextEnvelopeSeq 5 = 6 :=
  envelope_seq_allocation_spec.2.1 5 (by decide) (by decide)

/-- C10: serializing the three hex-string key fields of any LinkKeys value to
a JSON object and parsing them back is a lossless round trip. -/
theorem linkkeys_json_round_trip (k : LinkKeys) :
    LinkKeys.fromJson (LinkKeys.toJson k) = k := by
  cases k
  rfl

/-- C9 counterexample: closing a fully ACTIVE session invokes the disconnect
hook zero times, not exactly once as the claim states. -/
theorem session_close_hook_counterexample :
    (SessionModel.close exampleActiveSession).2.length = 0 ∧
    ¬ (SessionModel.close exampleActiveSession).2.length = 1 := by
  constructor
  · rfl
  · decide

/-- C9 amended: Session.close() is idempotent — from any state it leaves the
session Disconnected with the socket, deframe state, session info, outbound
queue and receiver released, and a second close changes nothing — and close()
itself never invokes the disconnect hook; the hook fires exactly once per
_handle_disconnect invocation, carrying the causing error (none for a clean
disconnect), and _handle_disconnect also leaves the session Disconnected. -/
theorem session_close_idempotent_and_hook_spec :
    ∀ s : SessionModel,
      ((SessionModel.close s).1.lifecycle = SessionLifecycle.disconnected ∧
        (SessionModel.close s).1.sock = none ∧
        (SessionModel.close s).1.deframeState = none ∧
        (SessionModel.close s).1.info = none ∧
        (SessionModel.close s).1.outbound = none ∧
        (SessionModel.close s).1.recvRunning = false) ∧
      SessionModel.close (SessionModel.close s).1 = SessionModel.close s ∧
      (SessionModel.close s).2 = [] ∧
      (∀ err : Option String,
        (SessionModel.handleDisconnect s err).2 = [err] ∧
        (SessionModel.handleDisconnect s err).1.lifecycle =
          SessionLifecycle.disconnected) := by
  intro s
  refine ⟨⟨rfl, rfl, rfl, rfl, rfl, rfl⟩, rfl, rfl, ?_⟩
  intro err
  exact ⟨rfl, rfl⟩

/-- C8: the initial and empty panel snapshots have version 0; every
_replace_snapshot call increases both the version counter and the published
snapshot version by exactly 1 (so after n replacements the version is n); and
the snapshot value obtained after the first i replacements of a history is
unaffected by any later replacements. -/
theorem snapshot_versioning_spec :
    PanelSnapshot.empty.version = 0 ∧
    initialSnapClient.snapshot.version = 0 ∧
    (∀ (c : SnapClient) (u : SnapshotUpdates) (now : Nat),
      (replaceSnapshot c u now).snapshotVersion = c.snapshotVersion + 1 ∧
      (replaceSnapshot c u now).snapshot.version = c.snapshotVersion + 1) ∧
    (∀ us : List (SnapshotUpdates × Nat),
      (runReplacements initialSnapClient us).snapshotVersion = us.length) ∧
    (∀ (us vs : List (SnapshotUpdates × Nat)) (i : Nat), i ≤ us.length →
      snapshotAt (us ++ vs) i = snapshotAt us i) := by
  refine ⟨rfl, rfl, fun c u now => ⟨rfl, rfl⟩, ?_, ?_⟩
  · intro us
    simpa [initialSnapClient] using runReplacements_version us initialSnapClient
  · intro us vs i hi
    unfold snapshotAt
    rw [List.take_append_of_le_length hi]

/-- Witness for C8: the history-prefix clause evaluated at a concrete
two-replacement history with i = 1. -/
theorem snapshot_versioning_spec_witness :
    snapshotAt ([(noUpdates, 3)] ++ [(noUpdates, 4)]) 1 =
      snapshotAt [(noUpdates, 3)] 1 :=
  snapshot_versioning_spec.2.2.2.2 [(noUpdates, 3)] [(noUpdates, 4)] 1 (by decide)

/-- C4: with the kernel-level connection readiness holding, the client is
ready exactly when, for each of the three gating domains (area, zone,
output), the inventory-ready event has fired and the status-pending set is
empty; readiness, once reached, is never lost by a further event (so
wait_ready returns true from the moment the last required status update is
processed); and in the scenario with configured ids exactly 1 per domain,
readiness is false after every proper prefix of the three inventory events
followed by the three status updates, and true after the full sequence.  A
domain with zero configured ids is status-ready directly upon its
inventory-ready event, which the biconditional covers with an empty pending
set. -/
theorem readiness_gating_spec :
    (∀ (kernelReady : Bool) (es : List BootstrapEvent), kernelReady = true →
      (clientReady kernelReady (runBootstrap es) = true ↔
        ((runBootstrap es).area.inventoryReady = true ∧
            (runBootstrap es).area.statusPending = []) ∧
          ((runBootstrap es).zone.inventoryReady = true ∧
            (runBootstrap es).zone.statusPending = []) ∧
          ((runBootstrap es).output.inventoryReady = true ∧
            (runBootstrap es).output.statusPending = []))) ∧
    (∀ (es : List BootstrapEvent) (e : BootstrapEvent),
      bootstrapReady (runBootstrap es) = true →
      bootstrapReady (runBootstrap (es ++ [e])) = true) ∧
    ((List.range 6).all
      (fun k => !(bootstrapReady (runBootstrap (scenarioTrace.take k)))) = true) ∧
    bootstrapReady (runBootstrap scenarioTrace) = true := by
  refine ⟨?_, ?_, by decide, by decide⟩
  · intro kernelReady es hkr
    subst hkr
    have h := bootstrapReady_iff_of_inv (runBootstrap es) (stateInv_run es)
    simpa [clientReady] using h
  · intro es e h
    have hstep := bootstrapReady_step_mono (runBootstrap es) e (stateInv_run es) h
    simpa [runBootstrap, List.foldl_append] using hstep

/-- C7: applying a keypad attributes payload overwrites only fields present
in the payload — every typed field whose key is absent, and every open-dict
key absent from the payload, keeps its previous value (and the keypad id is
never touched) — and the changed-keys set contains exactly the fields whose
stored values actually differ after the application (typed fields by name,
open-dict keys outside the skipped set generically; skipped keys are never
written by the open-field loop).  The payload is a dict, so its keys are
distinct. -/
theorem patch_semantics_spec :
    ∀ (kp : KeypadState) (payload : List (String × Value)),
      (payload.map Prod.fst).Nodup →
      ((applyKeypadAttribs kp payload).1.keypadId = kp.keypadId ∧
        (assocGet payload "name" = none →
          (applyKeypadAttribs kp payload).1.name = kp.name) ∧
        (assocGet payload "area" = none →
          (applyKeypadAttribs kp payload).1.area = kp.area) ∧
        (assocGet payload "zone_id" = none →
          (applyKeypadAttribs kp payload).1.zoneId = kp.zoneId) ∧
        (assocGet payload "source_id" = none →
          (applyKeypadAttribs kp payload).1.sourceId = kp.sourceId) ∧
        (assocGet payload "device_id" = none →
          (applyKeypadAttribs kp payload).1.deviceId = kp.deviceId) ∧
        (assocGet payload "flags" = none →
          (applyKeypadAttribs kp payload).1.flags = kp.flags) ∧
        (∀ k : String, k ∉ payload.map Prod.fst →
          pyGet (applyKeypadAttribs kp payload).1.fields k =
            pyGet kp.fields k)) ∧
      (("name" ∈ (applyKeypadAttribs kp payload).2 ↔
          (applyKeypadAttribs kp payload).1.name ≠ kp.name) ∧
        ("area" ∈ (applyKeypadAttribs kp payload).2 ↔
          (applyKeypadAttribs kp payload).1.area ≠ kp.area) ∧
        ("zone_id" ∈ (applyKeypadAttribs kp payload).2 ↔
          (applyKeypadAttribs kp payload).1.zoneId ≠ kp.zoneId) ∧
        ("source_id" ∈ (applyKeypadAttribs kp payload).2 ↔
          (applyKeypadAttribs kp payload).1.sourceId ≠ kp.sourceId) ∧
        ("device_id" ∈ (applyKeypadAttribs kp payload).2 ↔
          (applyKeypadAttribs kp payload).1.deviceId ≠ kp.deviceId) ∧
        ("flags" ∈ (applyKeypadAttribs kp payload).2 ↔
          (applyKeypadAttribs kp payload).1.flags ≠ kp.flags) ∧
        (∀ k : String, k ∉ keypadSkipKeys →
          (k ∈ (applyKeypadAttribs kp payload).2 ↔
            pyGet (applyKeypadAttribs kp payload).1.fields k ≠
              pyGet kp.fields k)) ∧
        (∀ k : String, k ∈ keypadSkipKeys →
          pyGet (applyKeypadAttribs kp payload).1.fields k =
            pyGet kp.fields k)) := by
  intro kp payload hnd
  have hfst : (applyKeypadAttribs kp payload).1 =
      { (stepFlags payload (stepDeviceId payload (stepSourceId payload
          (stepZoneId payload (stepArea payload
            (stepName payload kp).1).1).1).1).1).1 with
        fields := (applyExtraFields (stepFlags payload (stepDeviceId payload
          (stepSourceId payload (stepZoneId payload (stepArea payload
            (stepName payload kp).1).1).1).1).1).1.fields payload).1 } := rfl
  have hsnd : (applyKeypadAttribs kp payload).2 =
      (if (stepName payload kp).2 = true then ["name"] else []) ++
        (if (stepArea payload (stepName payload kp).1).2 = true then ["area"]
          else []) ++
        (if (stepZoneId payload (stepArea payload
            (stepName payload kp).1).1).2 = true then ["zone_id"] else []) ++
        (if (stepSourceId payload (stepZoneId payload (stepArea payload
            (stepName payload kp).1).1).1).2 = true then ["source_id"]
          else []) ++
        (if (stepDeviceId payload (stepSourceId payload (stepZoneId payload
            (stepArea payload (stepName payload kp).1).1).1).1).2 = true then
          ["device_id"] else []) ++
        (if (stepFlags payload (stepDeviceId payload (stepSourceId payload
            (stepZoneId payload (stepArea payload
              (stepName payload kp).1).1).1).1).1).2 = true then ["flags"]
          else []) ++
        (applyExtraFields (stepFlags payload (stepDeviceId payload
          (stepSourceId payload (stepZoneId payload (stepArea payload
            (stepName payload kp).1).1).1).1).1).1.fields payload).2 := rfl
  obtain ⟨n_kid, n_area, n_zid, n_sid, n_did, n_flags, n_fields, n_iff, n_fr⟩ :=
    stepName_spec payload kp
  set K1 := (stepName payload kp).1 with hK1
  set b1 := (stepName payload kp).2 with hb1
  obtain ⟨a_kid, a_name, a_zid, a_sid, a_did, a_flags, a_fields, a_iff, a_fr⟩ :=
    stepArea_spec payload K1
  set K2 := (stepArea payload K1).1 with hK2
  set b2 := (stepArea payload K1).2 with hb2
  obtain ⟨z_kid, z_name, z_area, z_sid, z_did, z_flags, z_fields, z_iff, z_fr⟩ :=
    stepZoneId_spec payload K2
  set K3 := (stepZoneId payload K2).1 with hK3
  set b3 := (stepZoneId payload K2).2 with hb3
  obtain ⟨s_kid, s_name, s_area, s_zid, s_did, s_flags, s_fields, s_iff, s_fr⟩ :=
    stepSourceId_spec payload K3
  set K4 := (stepSourceId payload K3).1 with hK4
  set b4 := (stepSourceId payload K3).2 with hb4
  obtain ⟨d_kid, d_name, d_area, d_zid, d_sid, d_flags, d_fields, d_iff, d_fr⟩ :=
    stepDeviceId_spec payload K4
  set K5 := (stepDeviceId payload K4).1 with hK5
  set b5 := (stepDeviceId payload K4).2 with hb5
  obtain ⟨f_kid, f_name, f_area, f_zid, f_sid, f_did, f_fields, f_iff, f_fr⟩ :=
    stepFlags_spec payload K5
  set K6 := (stepFlags payload K5).1 with hK6
  set b6 := (stepFlags payload K5).2 with hb6
  set EX := applyExtraFields K6.fields payload with hEX
  have ckid : K6.keypadId = kp.keypadId :=
    f_kid.trans (d_kid.trans (s_kid.trans (z_kid.trans (a_kid.trans n_kid))))
  have cname : K6.name = K1.name :=
    f_name.trans (d_name.trans (s_name.trans (z_name.trans a_name)))
  have carea : K6.area = K2.area :=
    f_area.trans (d_area.trans (s_area.trans z_area))
  have czid : K6.zoneId = K3.zoneId := f_zid.trans (d_zid.trans s_zid)
  have csid : K6.sourceId = K4.sourceId := f_sid.trans d_sid
  have cdid : K6.deviceId = K5.deviceId := f_did
  have cfields : K6.fields = kp.fields :=
    f_fields.trans (d_fields.trans (s_fields.trans (z_fields.trans
      (a_fields.trans n_fields))))
  have hinArea : K1.area = kp.area := n_area
  have hinZid : K2.zoneId = kp.zoneId := a_zid.trans n_zid
  have hinSid : K3.sourceId = kp.sourceId := z_sid.trans (a_sid.trans n_sid)
  have hinDid : K4.deviceId = kp.deviceId :=
    s_did.trans (z_did.trans (a_did.trans n_did))
  have hinFlags : K5.flags = kp.flags :=
    d_flags.trans (s_flags.trans (z_flags.trans (a_flags.trans n_flags)))
  rw [hinArea] at a_iff
  rw [hinZid] at z_iff
  rw [hinSid] at s_iff
  rw [hinDid] at d_iff
  rw [hinFlags] at f_iff
  have hFkid : (applyKeypadAttribs kp payload).1.keypadId = kp.keypadId := by
    rw [hfst]; exact ckid
  have hFname : (applyKeypadAttribs kp payload).1.name = K1.name := by
    rw [hfst]; exact cname
  have hFarea : (applyKeypadAttribs kp payload).1.area = K2.area := by
    rw [hfst]; exact carea
  have hFzid : (applyKeypadAttribs kp payload).1.zoneId = K3.zoneId := by
    rw [hfst]; exact czid
  have hFsid : (applyKeypadAttribs kp payload).1.sourceId = K4.sourceId := by
    rw [hfst]; exact csid
  have hFdid : (applyKeypadAttribs kp payload).1.deviceId = K5.deviceId := by
    rw [hfst]; exact cdid
  have hFflags : (applyKeypadAttribs kp payload).1.flags = K6.flags := by
    rw [hfst]
  have hFfields : (applyKeypadAttribs kp payload).1.fields = EX.1 := by
    rw [hfst]
  have hEXfields : EX = applyExtraFields kp.fields payload := by
    rw [hEX, cfields]
  have hnotName : "name" ∉ EX.2 := fun hc =>
    applyExtraFields_changed_not_skip payload K6.fields "name" hc
      (by simp [keypadSkipKeys])
  have hnotArea : "area" ∉ EX.2 := fun hc =>
    applyExtraFields_changed_not_skip payload K6.fields "area" hc
      (by simp [keypadSkipKeys])
  have hnotZid : "zone_id" ∉ EX.2 := fun hc =>
    applyExtraFields_changed_not_skip payload K6.fields "zone_id" hc
      (by simp [keypadSkipKeys])
  have hnotSid : "source_id" ∉ EX.2 := fun hc =>
    applyExtraFields_changed_not_skip payload K6.fields "source_id" hc
      (by simp [keypadSkipKeys])
  have hnotDid : "device_id" ∉ EX.2 := fun hc =>
    applyExtraFields_changed_not_skip payload K6.fields "device_id" hc
      (by simp [keypadSkipKeys])
  have hnotFlags : "flags" ∉ EX.2 := fun hc =>
    applyExtraFields_changed_not_skip payload K6.fields "flags" hc
      (by simp [keypadSkipKeys])
  refine ⟨⟨hFkid, ?_, ?_, ?_, ?_, ?_, ?_, ?_⟩, ?_, ?_, ?_, ?_, ?_, ?_, ?_, ?_⟩
  · intro h
    rw [hFname]
    exact n_fr h
  · intro h
    rw [hFarea]
    exact (a_fr h).trans hinArea
  · intro h
    rw [hFzid]
    exact (z_fr h).trans hinZid
  · intro h
    rw [hFsid]
    exact (s_fr h).trans hinSid
  · intro h
    rw [hFdid]
    exact (d_fr h).trans hinDid
  · intro h
    rw [hFflags]
    exact (f_fr h).trans hinFlags
  · intro k hk
    rw [hFfields, hEXfields]
    exact (applyExtraFields_frame payload kp.fields k hk).1
  · rw [hFname, hsnd]
    simp [List.mem_append, mem_ite_singleton, n_iff, hnotName]
  · rw [hFarea, hsnd]
    simp [List.mem_append, mem_ite_singleton, a_iff, hnotArea]
  · rw [hFzid, hsnd]
    simp [List.mem_append, mem_ite_singleton, z_iff, hnotZid]
  · rw [hFsid, hsnd]
    simp [List.mem_append, mem_ite_singleton, s_iff, hnotSid]
  · rw [hFdid, hsnd]
    simp [List.mem_append, mem_ite_singleton, d_iff, hnotDid]
  · rw [hFflags, hsnd]
    simp [List.mem_append, mem_ite_singleton, f_iff, hnotFlags]
  · intro k hk
    have h1 : ¬ (k = "name") := fun hc => hk (by rw [hc]; simp [keypadSkipKeys])
    have h2 : ¬ (k = "area") := fun hc => hk (by rw [hc]; simp [keypadSkipKeys])
    have h3 : ¬ (k = "zone_id") := fun hc =>
      hk (by rw [hc]; simp [keypadSkipKeys])
    have h4 : ¬ (k = "source_id") := fun hc =>
      hk (by rw [hc]; simp [keypadSkipKeys])
    have h5 : ¬ (k = "device_id") := fun hc =>
      hk (by rw [hc]; simp [keypadSkipKeys])
    have h6 : ¬ (k = "flags") := fun hc =>
      hk (by rw [hc]; simp [keypadSkipKeys])
    have hiff := applyExtraFields_changed_iff payload kp.fields k hnd hk
    rw [hsnd, hFfields, hEXfields]
    simp only [List.mem_append, mem_ite_singleton, h1, h2, h3, h4, h5, h6,
      and_false, false_or, or_false]
    exact hiff
  · intro k hk
    rw [hFfields, hEXfields]
    exact applyExtraFields_skip_frame payload kp.fields k hk

theorem errorCodeOf_ne_zero (domainObj p : List (String × Value)) (e : Int)
    (h : errorCodeOf domainObj p = some e) : e ≠ 0 := by
  unfold errorCodeOf at h
  rcases hv : (assocGet p "error_code").getD (pyGet domainObj "error_code") with
    _ | n | s | b | xs | o <;> rw [hv] at h
  · exact Option.noConfusion (show (none : Option Int) = some e from h)
  · have h2 : (if n ≠ 0 then (some n : Option Int) else none) = some e := h
    by_cases h0 : n = 0
    · rw [if_neg (by simp [h0])] at h2
      cases h2
    · rw [if_pos h0] at h2
      cases h2
      exact h0
  · exact Option.noConfusion (show (none : Option Int) = some e from h)
  · exact Option.noConfusion (show (none : Option Int) = some e from h)
  · exact Option.noConfusion (show (none : Option Int) = some e from h)
  · exact Option.noConfusion (show (none : Option Int) = some e from h)

theorem errorCodeOfPayload_ne_zero (p : List (String × Value)) (e : Int)
    (h : errorCodeOfPayload p = some e) : e ≠ 0 := by
  unfold errorCodeOfPayload at h
  rcases hv : assocGet p "error_code" with _ | v
  · rw [hv] at h
    exact Option.noConfusion h
  · rw [hv] at h
    cases v with
    | vInt n =>
        have h2 : (if n ≠ 0 then (some n : Option Int) else none) = some e := h
        by_cases h0 : n = 0
        · rw [if_neg (by simp [h0])] at h2
          cases h2
        · rw [if_pos h0] at h2
          cases h2
          exact h0
    | vNull => exact Option.noConfusion (show (none : Option Int) = some e from h)
    | vStr s => exact Option.noConfusion (show (none : Option Int) = some e from h)
    | vBool b => exact Option.noConfusion (show (none : Option Int) = some e from h)
    | vList xs => exact Option.noConfusion (show (none : Option Int) = some e from h)
    | vObj o => exact Option.noConfusion (show (none : Option Int) = some e from h)

/-- C6 counterexample: a get_table_info response carrying the dedicated
authorization error code 11008 makes handler_keypad_get_table_info emit a
generic API-error event, not the authorization-required event the claim
requires of every response handler. -/
theorem table_info_auth_code_counterexample :
    handlerKeypadGetTableInfo { tableInfoKeypad := none, lastMessageAt := none }
        9
        [("keypad", Value.vObj [("get_table_info",
          Value.vObj [("error_code", Value.vInt 11008)])])] =
      ({ tableInfoKeypad := none, lastMessageAt := none },
        [EmittedEvent.apiError 11008 "keypad" none], true) ∧
    ¬ (handlerKeypadGetTableInfo
          { tableInfoKeypad := none, lastMessageAt := none } 9
          [("keypad", Value.vObj [("get_table_info",
            Value.vObj [("error_code", Value.vInt 11008)])])]).2.1 =
        [EmittedEvent.authorizationRequired 11008 "keypad" none] := by
  constructor
  · rfl
  · decide

/-- C6 amended: in every modelled response handler a non-zero integer error
code found by the handler's own lookup short-circuits field application: the
state is returned unchanged, exactly one event is emitted, and the handler
reports handled = true.  The system-command handlers and
handler_keypad_get_attribs emit authorization-required for the dedicated
code 11008 and a generic API-error otherwise, while
handler_keypad_get_table_info emits a generic API-error for every non-zero
code, 11008 included. -/
theorem error_code_short_circuit_spec :
    (∀ (st : SystemStateModel) (now : Nat) (msg : List (String × Value))
        (command : String) (alt : Option String)
        (systemObj p : List (String × Value)) (e : Int),
      asObj (assocGet msg "system") = some systemObj →
      resolvePayload systemObj command alt = some p →
      errorCodeOf systemObj p = some e →
      e ≠ 0 ∧
        handleSystemCommand st now msg command alt =
          (st,
            [if e = 11008 then
              EmittedEvent.authorizationRequired e "system" none
            else EmittedEvent.apiError e "system" none], true)) ∧
    (∀ (st : KeypadDomainState) (now : Nat) (msg : List (String × Value))
        (keypadObj p : List (String × Value)) (e : Int),
      asObj (assocGet msg "keypad") = some keypadObj →
      asObj (assocGet keypadObj "get_attribs") = some p →
      errorCodeOf keypadObj p = some e →
      e ≠ 0 ∧
        handlerKeypadGetAttribs st now msg =
          (st,
            [if e = 11008 then
              EmittedEvent.authorizationRequired e "keypad"
                (intFieldOf p "keypad_id")
            else EmittedEvent.apiError e "keypad" (intFieldOf p "keypad_id")],
            true)) ∧
    (∀ (st : KeypadTableState) (now : Nat) (msg : List (String × Value))
        (keypadObj p : List (String × Value)) (e : Int),
      asObj (assocGet msg "keypad") = some keypadObj →
      asObj
        (match assocGet keypadObj "get_table_info" with
          | some v => some v
          | none => assocGet keypadObj "table_info") = some p →
      errorCodeOfPayload p = some e →
      e ≠ 0 ∧
        handlerKeypadGetTableInfo st now msg =
          (st, [EmittedEvent.apiError e "keypad" none], true)) := by
  refine ⟨?_, ?_, ?_⟩
  · intro st now msg command alt systemObj p e h1 h2 h3
    refine ⟨errorCodeOf_ne_zero systemObj p e h3, ?_⟩
    simp only [handleSystemCommand, h1, h2, h3]
    by_cases he : e = 11008
    · rw [if_pos he, if_pos he]
    · rw [if_neg he, if_neg he]
  · intro st now msg keypadObj p e h1 h2 h3
    refine ⟨errorCodeOf_ne_zero keypadObj p e h3, ?_⟩
    simp only [handlerKeypadGetAttribs, h1, h2, h3]
    by_cases he : e = 11008
    · rw [if_pos he, if_pos he]
    · rw [if_neg he, if_neg he]
  · intro st now msg keypadObj p e h1 h2 h3
    refine ⟨errorCodeOfPayload_ne_zero p e h3, ?_⟩
    simp only [handlerKeypadGetTableInfo, h1, h2, h3]

/-- Witness for C6: evaluated on concrete messages carrying error code 11008
(system route), error code 5 (keypad get_attribs route), and error code
11008 (keypad get_table_info route, yielding the generic API-error). -/
theorem error_code_short_circuit_spec_witness :
    (handleSystemCommand ⟨[], none⟩ 9
        [("system", Value.vObj [("get_attribs",
          Value.vObj [("error_code", Value.vInt 11008)])])] "get_attribs"
        none =
      (⟨[], none⟩,
        [EmittedEvent.authorizationRequired 11008 "system" none], true)) ∧
    (handlerKeypadGetAttribs ⟨[], none⟩ 9
        [("keypad", Value.vObj [("get_attribs",
          Value.vObj [("error_code", Value.vInt 5),
            ("keypad_id", Value.vInt 2)])])] =
      (⟨[], none⟩, [EmittedEvent.apiError 5 "keypad" (some 2)], true)) ∧
    (handlerKeypadGetTableInfo ⟨none, none⟩ 9
        [("keypad", Value.vObj [("get_table_info",
          Value.vObj [("error_code", Value.vInt 11008)])])] =
      (⟨none, none⟩, [EmittedEvent.apiError 11008 "keypad" none], true)) := by
  refine ⟨?_, ?_, ?_⟩
  · have h := error_code_short_circuit_spec.1 ⟨[], none⟩ 9
      [("system", Value.vObj [("get_attribs",
        Value.vObj [("error_code", Value.vInt 11008)])])] "get_attribs" none
      [("get_attribs", Value.vObj [("error_code", Value.vInt 11008)])]
      [("error_code", Value.vInt 11008)] 11008 (by decide) (by decide)
      (by decide)
    simpa using h.2
  · have h := error_code_short_circuit_spec.2.1 ⟨[], none⟩ 9
      [("keypad", Value.vObj [("get_attribs",
        Value.vObj [("error_code", Value.vInt 5),
          ("keypad_id", Value.vInt 2)])])]
      [("get_attribs", Value.vObj [("error_code", Value.vInt 5),
        ("keypad_id", Value.vInt 2)])]
      [("error_code", Value.vInt 5), ("keypad_id", Value.vInt 2)] 5
      (by decide) (by decide) (by decide)
    simpa using h.2
  · have h := error_code_short_circuit_spec.2.2 ⟨none, none⟩ 9
      [("keypad", Value.vObj [("get_table_info",
        Value.vObj [("error_code", Value.vInt 11008)])])]
      [("get_table_info", Value.vObj [("error_code", Value.vInt 11008)])]
      [("error_code", Value.vInt 11008)] 11008 (by decide) (by decide)
      (by decide)
    simpa using h.2

theorem consecutiveFrom_succ (start : Int) (n : Nat) :
    consecutiveFrom start (n + 1) = start :: consecutiveFrom (start + 1) n := by
  unfold consecutiveFrom
  rw [List.range_succ_eq_map]
  simp only [List.map_cons, List.map_map]
  refine List.cons_eq_cons.mpr ⟨by simp, ?_⟩
  refine List.map_congr_left ?_
  intro i _
  simp only [Function.comp_apply]
  push_cast
  ring

theorem consecutiveFrom_one (start : Int) : consecutiveFrom start 1 = [start] := by
  unfold consecutiveFrom
  simp [List.range_succ]

theorem pagedLoopGo_requested_consecutive (fuel : Nat) :
    ∀ (panel : Int → List (String × Value)) (countField : String)
      (blockCountOpt : Option Int) (blockId : Int) (blocks : List PagedBlock)
      (req : List Int),
      ∃ n : Nat,
        (pagedLoopGo panel countField blockCountOpt blockId blocks req
            fuel).requested =
          req ++ consecutiveFrom blockId n := by
  induction fuel with
  | zero =>
      intro panel countField blockCountOpt blockId blocks req
      refine ⟨0, ?_⟩
      simp [pagedLoopGo, PagedLoopResult.requested, consecutiveFrom]
  | succ fuel ih =>
      intro panel countField blockCountOpt blockId blocks req
      rcases blockCountOpt with _ | c0
      · rcases hc : coerceBlockCount (assocGet (panel blockId) countField) with
          _ | c
        · refine ⟨1, ?_⟩
          simp [pagedLoopGo, hc, PagedLoopResult.requested, consecutiveFrom_one]
        · by_cases hge : blockId ≥ c
          · refine ⟨1, ?_⟩
            simp [pagedLoopGo, hc, hge, PagedLoopResult.requested,
              consecutiveFrom_one]
          · obtain ⟨n, hn⟩ := ih panel countField (some c) (blockId + 1)
              (blocks ++ [⟨blockId, panel blockId⟩]) (req ++ [blockId])
            refine ⟨n + 1, ?_⟩
            rw [consecutiveFrom_succ]
            simp only [pagedLoopGo, hc]
            rw [if_neg hge, hn]
            simp
      · rcases hc : coerceBlockCount (assocGet (panel blockId) countField) with
          _ | c
        · by_cases hge : blockId ≥ c0
          · refine ⟨1, ?_⟩
            simp [pagedLoopGo, hc, hge, PagedLoopResult.requested,
              consecutiveFrom_one]
          · obtain ⟨n, hn⟩ := ih panel countField (some c0) (blockId + 1)
              (blocks ++ [⟨blockId, panel blockId⟩]) (req ++ [blockId])
            refine ⟨n + 1, ?_⟩
            rw [consecutiveFrom_succ]
            simp only [pagedLoopGo, hc]
            rw [if_neg hge, hn]
            simp
        · by_cases hne : c ≠ c0
          · refine ⟨1, ?_⟩
            simp [pagedLoopGo, hc, hne, PagedLoopResult.requested,
              consecutiveFrom_one]
          · by_cases hge : blockId ≥ c0
            · refine ⟨1, ?_⟩
              simp [pagedLoopGo, hc, hne, hge, PagedLoopResult.requested,
                consecutiveFrom_one]
            · obtain ⟨n, hn⟩ := ih panel countField (some c0) (blockId + 1)
                (blocks ++ [⟨blockId, panel blockId⟩]) (req ++ [blockId])
              refine ⟨n + 1, ?_⟩
              rw [consecutiveFrom_succ]
              simp only [pagedLoopGo, hc]
              rw [if_neg hne, if_neg hge, hn]
              simp

/-- C1: in every run of the paged loop the block requests form a consecutive
index sequence starting at the first block index; on the §8 zone scenario —
blocks declaring count 3 with zone lists [1,2], [3], [4,5] — exactly blocks
1, 2, 3 are requested and the merged result is the zones list [1,2,3,4,5]
with block_count 3; and a second block declaring block_count 2 after a first
block declared 3 aborts the operation with the block-count-mismatch protocol
error after two requests. -/
theorem paged_merge_spec :
    (∀ (panel : Int → List (String × Value)) (countField : String)
        (firstBlock : Int) (fuel : Nat),
      ∃ n : Nat,
        (runPagedLoop panel countField firstBlock fuel).requested =
          consecutiveFrom firstBlock n) ∧
    runZoneGetConfigured scenarioPanel 10 =
      PagedExec.ok
        [("zones", Value.vList [Value.vInt 1, Value.vInt 2, Value.vInt 3,
          Value.vInt 4, Value.vInt 5]),
         ("block_count", Value.vInt 3)] ∧
    (runPagedLoop scenarioPanel "block_count" 1 10).requested = [1, 2, 3] ∧
    runZoneGetConfigured mismatchPanel 10 = PagedExec.protocolError ∧
    runPagedLoop mismatchPanel "block_count" 1 10 =
      PagedLoopResult.countMismatch [1, 2] := by
  refine ⟨?_, by decide, by decide, by decide, by decide⟩
  intro panel countField firstBlock fuel
  obtain ⟨n, hn⟩ :=
    pagedLoopGo_requested_consecutive fuel panel countField none firstBlock []
      []
  exact ⟨n, by simpa [runPagedLoop] using hn⟩

/-- C3: for every request of the single-response execute path the response
deadline is the confirmed-send instant plus the timeout — the whole trace is
independent of the enqueue instant, so queueing delay does not erode the
budget; a reply that never arrives, or arrives past the deadline, yields a
Timeout failure; and every run, timeout included, ends with exactly 0
pending entries and exactly one transmission of the sequence. -/
theorem timeout_from_send_spec :
    ∀ (enqueuedAt : ℚ) (env : SendEnvironment) (seq : Int) (timeoutS : ℚ),
      (runSingleExec enqueuedAt env seq timeoutS).deadline =
        env.sentAt + timeoutS ∧
      runSingleExec enqueuedAt env seq timeoutS =
        runSingleExec 0 env seq timeoutS ∧
      (env.replyAt = none →
        (runSingleExec enqueuedAt env seq timeoutS).outcome =
          ExecOutcome.timeoutFailure) ∧
      (∀ t : ℚ, env.replyAt = some t → env.sentAt + timeoutS < t →
        (runSingleExec enqueuedAt env seq timeoutS).outcome =
          ExecOutcome.timeoutFailure) ∧
      (runSingleExec enqueuedAt env seq timeoutS).pendingAfter.length = 0 ∧
      (runSingleExec enqueuedAt env seq timeoutS).sends = [seq] := by
  intro enqueuedAt env seq timeoutS
  rcases hr : env.replyAt with _ | t
  · refine ⟨?_, ?_, ?_, ?_, ?_, ?_⟩ <;>
      simp [runSingleExec, hr, pendingCreate, pendingRemove]
  · by_cases hle : t ≤ env.sentAt + timeoutS
    · refine ⟨?_, ?_, ?_, ?_, ?_, ?_⟩ <;>
        simp [runSingleExec, hr, hle, pendingCreate, pendingRemove]
    · refine ⟨?_, ?_, ?_, ?_, ?_, ?_⟩ <;>
        simp [runSingleExec, hr, hle, pendingCreate, pendingRemove]

/-- Witness for C3: a request enqueued at 0 whose bytes go out at 5 with a
3-second budget times out when no reply ever arrives, with zero pending
entries and one transmission. -/
theorem timeout_from_send_spec_witness :
    (runSingleExec 0 { sentAt := 5, replyAt := none } 42 3).deadline = 5 + 3 ∧
    (runSingleExec 0 { sentAt := 5, replyAt := none } 42 3).outcome =
      ExecOutcome.timeoutFailure ∧
    (runSingleExec 0 { sentAt := 5, replyAt := none } 42 3).pendingAfter.length
      = 0 ∧
    (runSingleExec 0 { sentAt := 5, replyAt := none } 42 3).sends = [42] := by
  have h := timeout_from_send_spec 0 { sentAt := 5, replyAt := none } 42 3
  exact ⟨h.1, h.2.2.1 rfl, h.2.2.2.2.1, h.2.2.2.2.2⟩

/-- C5 counterexample: with a session present but no authenticated role, a
command whose minimum privilege level is installer passes the local gate and
is transmitted — the gate result does not depend on the stored role at all —
so the facade does not perform check (b) of the claim. -/
theorem permission_role_check_counterexample :
    executeGate { sessionId := some 1, areas := [], authRole := none }
        { minRole := Role.installer, needsPin := false,
          needsDisarmed := false } PinParam.absent = none ∧
    executeWithGate { sessionId := some 1, areas := [], authRole := none }
        { minRole := Role.installer, needsPin := false,
          needsDisarmed := false } PinParam.absent = (none, 1) ∧
    roleRank none < roleRank (some Role.installer) ∧
    executeGate
        { sessionId := some 1, areas := [], authRole := some Role.installer }
        { minRole := Role.installer, needsPin := false,
          needsDisarmed := false } PinParam.absent =
      executeGate { sessionId := some 1, areas := [], authRole := none }
        { minRole := Role.installer, needsPin := false,
          needsDisarmed := false } PinParam.absent := by
  refine ⟨rfl, rfl, by decide, rfl⟩

/-- C5 amended: before any bytes of a gated command are sent the facade
performs checks (a), (c) and (d) locally — (a) a missing session/encryption
context fails with not-authenticated; (d) a command requiring all areas
disarmed fails unless every area is disarmed; (c) a command requiring a PIN
fails with pin-required when the PIN is missing or empty and with
invalid-pin when it is malformed, both distinct from the permission-denied
failure — and any gate failure means zero transmissions.  Check (b) is
absent: the minimum privilege level is looked up but never compared against
the authenticated role, and the gate result is independent of that role. -/
theorem permission_gate_spec :
    ∀ (ctx : GateContext) (lvl : PermissionLevel) (pin : PinParam),
      (ctx.sessionId = none →
        executeGate ctx lvl pin = some GateFailure.notAuthenticated) ∧
      (ctx.sessionId ≠ none → requiresDisarmed lvl = true →
        allAreasDisarmed ctx.areas = false →
        executeGate ctx lvl pin = some GateFailure.permissionDeniedDisarmed) ∧
      (ctx.sessionId ≠ none →
        (requiresDisarmed lvl = false ∨ allAreasDisarmed ctx.areas = true) →
        requiresPin lvl = true → executeGate ctx lvl pin = checkPin pin) ∧
      (checkPin PinParam.absent = some GateFailure.pinRequired ∧
        checkPin (PinParam.pstr "") = some GateFailure.pinRequired ∧
        checkPin (PinParam.pstr "12a4") = some GateFailure.invalidPin ∧
        checkPin (PinParam.pint 0) = some GateFailure.invalidPin ∧
        GateFailure.pinRequired ≠ GateFailure.permissionDeniedDisarmed ∧
        GateFailure.invalidPin ≠ GateFailure.permissionDeniedDisarmed) ∧
      (executeGate ctx lvl pin ≠ none →
        (executeWithGate ctx lvl pin).2 = 0) ∧
      (∀ r : Option Role,
        executeGate { ctx with authRole := r } lvl pin =
          executeGate ctx lvl pin) := by
  intro ctx lvl pin
  refine ⟨?_, ?_, ?_, by decide, ?_, fun r => rfl⟩
  · intro h
    simp [executeGate, enforcePermissions, h]
  · intro hs hd ha
    simp [executeGate, enforcePermissions, hs, hd, ha]
  · intro hs hdis hp
    rcases hdis with hd | ha
    · simp [executeGate, enforcePermissions, hs, hd, hp, requiresDisarmed] at *
      simp [hd]
    · simp [executeGate, enforcePermissions, hs, ha, hp]
  · intro h
    unfold executeWithGate
    rcases hg : executeGate ctx lvl pin with _ | err
    · exact absurd hg h
    · simp

/-- Witness for C5: the amended gate clauses applied at concrete inputs —
a missing session fails closed with zero transmissions, and an armed area
blocks a disarm-requiring command. -/
theorem permission_gate_spec_witness :
    executeGate { sessionId := none, areas := [], authRole := none }
        { minRole := Role.anyUser, needsPin := false, needsDisarmed := false }
        PinParam.absent = some GateFailure.notAuthenticated ∧
    executeGate
        { sessionId := some 1,
          areas := [{ armState := some "armed_away", armedState := none }],
          authRole := some Role.master }
        { minRole := Role.master, needsPin := true, needsDisarmed := true }
        (PinParam.pstr "1234") =
      some GateFailure.permissionDeniedDisarmed :=
  ⟨(permission_gate_spec
      { sessionId := none, areas := [], authRole := none }
      { minRole := Role.anyUser, needsPin := false, needsDisarmed := false }
      PinParam.absent).1 rfl,
   (permission_gate_spec
      { sessionId := some 1,
        areas := [{ armState := some "armed_away", armedState := none }],
        authRole := some Role.master }
      { minRole := Role.master, needsPin := true, needsDisarmed := true }
      (PinParam.pstr "1234")).2.1 (by decide) rfl (by decide)⟩

/-- Witness for C7: applying a payload containing only a name to a keypad
with other fields set leaves the area untouched. -/
theorem patch_semantics_spec_witness :
    (applyKeypadAttribs
        { keypadId := 1, name := some "Kitchen", area := some 2 }
        [("name", Value.vStr "Front Door")]).1.area =
      ({ keypadId := 1, name := some "Kitchen", area := some 2 } :
        KeypadState).area :=
  ((patch_semantics_spec
      { keypadId := 1, name := some "Kitchen", area := some 2 }
      [("name", Value.vStr "Front Door")] (by decide)).1.2.2.1) (by decide)

/-- Witness for C4: the biconditional applied to the concrete §8 scenario
yields readiness, and processing one further event preserves it. -/
theorem readiness_gating_spec_witness :
    clientReady true (runBootstrap scenarioTrace) = true ∧
    bootstrapReady
      (runBootstrap
        (scenarioTrace ++ [BootstrapEvent.statusSeen GatingDomain.area [1]])) =
      true :=
  ⟨(readiness_gating_spec.1 true scenarioTrace rfl).mpr (by decide),
   readiness_gating_spec.2.1 scenarioTrace
     (BootstrapEvent.statusSeen GatingDomain.area [1]) (by decide)⟩

end Elke27
